import Mathlib

/-!
Shallow embedding of the halo power-spectrum engine of `halo.py` (classes
`Halo`, `HaloExclusion`, `HaloFit`).

Conventions of the embedding:
* Machine floats become `ℚ`; the transcendental primitives used by the code
  (`numpy.exp`, `numpy.log`, `numpy.cos`, `numpy.sin`, `scipy.special.sici`,
  `scipy.special.hyp2f1`, real powers, `numpy.pi`) are abstract function
  fields of an `Env` record, as are the two numerical routines the code
  delegates to (`scipy.integrate.romberg` and
  `scipy.interpolate.InterpolatedUnivariateSpline`) and the external
  mass-function regeneration `mass.set_halo`.
* The external collaborators (HOD, mass function, single-epoch cosmology)
  are records of accessor functions, exactly the narrow interfaces the
  engine reads.
* Python attributes that may not exist yet (`_h_m_spline` before
  `_initialize_h_m`, `n_bar` before `_calculate_n_bar`) are `Option`
  fields; evaluating a missing spline is `none` (Python: AttributeError).
* Each method of the source becomes a function on the state record; methods
  that mutate `self` return the updated state.
-/

namespace ChompHalo

/-- Halo-occupation-distribution collaborator (interface read by halo.py). -/
structure HOD where
  first_moment : ℚ → ℚ
  second_moment : ℚ → ℚ
  first_moment_zero : ℚ
  second_moment_zero : ℚ

/-- Mass-function collaborator (interface read by halo.py). -/
structure MassFn where
  nu : ℚ → ℚ
  mass : ℚ → ℚ
  f_nu : ℚ → ℚ
  bias_nu : ℚ → ℚ
  nu_min : ℚ
  nu_max : ℚ
  ln_mass_min : ℚ
  m_star : ℚ
  ln_mass_array : List ℚ

/-- Single-epoch cosmology collaborator (interface read by halo.py). -/
structure Cosmo where
  linear_power : ℚ → ℚ
  delta_k : ℚ → ℚ
  delta_v : ℚ
  rho_bar : ℚ
  hubble : ℚ
  omega_m : ℚ
  omega_l : ℚ
  w : ℚ → ℚ

/-- The keys of `halo_dict` that halo.py reads. -/
structure HaloDict where
  c0 : ℚ
  beta : ℚ

/-- Abstract numerical/mathematical environment: transcendental primitives,
the scipy routines the code calls, the `defaults.default_precision` knobs,
and the mass-function mutation performed by `mass.set_halo`. -/
structure Env where
  exp : ℚ → ℚ
  log : ℚ → ℚ
  cos : ℚ → ℚ
  sin : ℚ → ℚ
  Si : ℚ → ℚ
  Ci : ℚ → ℚ
  hyp2f1 : ℚ → ℚ → ℚ → ℚ → ℚ
  rpow : ℚ → ℚ → ℚ
  pi : ℚ
  romberg : (ℚ → ℚ) → ℚ → ℚ → ℚ → ℚ → ℕ → ℚ
  fitSpline : List ℚ → List ℚ → ℚ → ℚ
  splineDerivs : List ℚ → List ℚ → ℚ → ℚ × ℚ
  massSetHalo : MassFn → HaloDict → MassFn
  halo_npoints : ℕ
  global_precision : ℚ
  halo_precision : ℚ
  divmax : ℕ

/-- numpy.linspace over ℚ. -/
def linspace (a b : ℚ) (n : ℕ) : List ℚ :=
  (List.range n).map (fun i => a + (b - a) * (i : ℚ) / (((n - 1 : ℕ)) : ℚ))

/-- Mutable state of a `Halo` instance: constructor-derived scalars, the
three geometry splines, the five term splines with their initialized
flags, and the cached mean galaxy density. -/
structure HaloState where
  k_min : ℚ
  k_max : ℚ
  ln_k_min : ℚ
  ln_k_max : ℚ
  ln_k_array : List ℚ
  redshift : ℚ
  cosmo : Cosmo
  halo_dict : HaloDict
  mass : MassFn
  c0 : ℚ
  beta : ℚ
  alpha : ℚ
  delta_v : ℚ
  rho_bar : ℚ
  hubble : ℚ
  local_hod : HOD
  n_bar_over_rho_bar : Option ℚ
  n_bar : Option ℚ
  ln_r_v_spline : Option (ℚ → ℚ)
  ln_concen_spline : Option (ℚ → ℚ)
  ln_halo_norm_spline : Option (ℚ → ℚ)
  h_m_spline : Option (ℚ → ℚ)
  h_g_spline : Option (ℚ → ℚ)
  pp_mm_spline : Option (ℚ → ℚ)
  pp_gm_spline : Option (ℚ → ℚ)
  pp_gg_spline : Option (ℚ → ℚ)
  initialized_h_m : Bool
  initialized_h_g : Bool
  initialized_pp_mm : Bool
  initialized_pp_gm : Bool
  initialized_pp_gg : Bool

/-- Halo._nbar_integrand. -/
def Halo.nbar_integrand (env : Env) (st : HaloState) (ln_nu : ℚ) : ℚ :=
  let nu := env.exp ln_nu
  let mass := st.mass.mass nu
  nu * st.local_hod.first_moment mass * st.mass.f_nu nu / mass

/-- Halo._calculate_n_bar: integrates the first-moment-weighted mass
function from the (HOD-adjusted) lower peak height and stores
`n_bar_over_rho_bar` and `n_bar`. -/
def Halo.calculate_n_bar (env : Env) (st : HaloState) : HaloState :=
  let nu_min :=
    if st.local_hod.first_moment_zero > -1 ∧
        st.local_hod.first_moment_zero > env.exp st.mass.ln_mass_min then
      st.mass.nu st.local_hod.first_moment_zero
    else
      st.mass.nu_min
  let nbor := env.romberg (fun ln_nu => Halo.nbar_integrand env st ln_nu)
    (env.log nu_min) (env.log st.mass.nu_max)
    env.global_precision env.halo_precision env.divmax
  { st with n_bar_over_rho_bar := some nbor, n_bar := some (nbor * st.rho_bar) }

/-- Halo._concentration (direct, pre-spline form). -/
def Halo.concentration_direct (env : Env) (st : HaloState) (mass : ℚ) : ℚ :=
  st.c0 * env.rpow (mass / st.mass.m_star) st.beta

/-- Halo._halo_normalization (direct, pre-spline form). -/
def Halo.halo_normalization_direct (env : Env) (st : HaloState) (mass : ℚ) : ℚ :=
  let con := Halo.concentration_direct env st mass
  let rho_s := st.rho_bar * st.delta_v * con * con * con / 3
  let rho_norm := env.rpow con (3 + st.alpha) *
    env.hyp2f1 (3 + st.alpha) (3 + st.alpha) (4 + st.alpha) (-1 * con) / (3 + st.alpha)
  rho_s / rho_norm

/-- Halo._virial_radius (direct, pre-spline form). -/
def Halo.virial_radius_direct (env : Env) (st : HaloState) (mass : ℚ) : ℚ :=
  let r3 := 3 * mass / (4 * env.pi * st.delta_v * st.rho_bar)
  env.rpow r3 (1 / 3)

/-- Halo._initialize_halo_splines: recompute the three geometry splines
pointwise over the whole ln-mass grid and refit them. -/
def Halo.initialize_halo_splines (env : Env) (st : HaloState) : HaloState :=
  let ln_r_v_array := st.mass.ln_mass_array.map
    (fun ln_m => env.log (Halo.virial_radius_direct env st (env.exp ln_m)))
  let ln_concen_array := st.mass.ln_mass_array.map
    (fun ln_m => env.log (Halo.concentration_direct env st (env.exp ln_m)))
  let ln_halo_norm_array := st.mass.ln_mass_array.map
    (fun ln_m => env.log (Halo.halo_normalization_direct env st (env.exp ln_m)))
  { st with
    ln_r_v_spline := some (env.fitSpline st.mass.ln_mass_array ln_r_v_array)
    ln_concen_spline := some (env.fitSpline st.mass.ln_mass_array ln_concen_array)
    ln_halo_norm_spline := some (env.fitSpline st.mass.ln_mass_array ln_halo_norm_array) }

/-- The attribute assignments of Halo.__init__ before it calls
`_calculate_n_bar` and `_initialize_halo_splines` (the `None` defaults of
the source construct collaborators externally; here they are arguments):
constants, grids, collaborator references, shape scalars, and the five
term-cache flags set to False with no spline attributes yet. -/
def Halo.fresh_state (env : Env) (redshift : ℚ) (input_hod : HOD) (cosmo : Cosmo)
    (mass_func : MassFn) (halo_dict : HaloDict) : HaloState :=
  let k_min : ℚ := 1 / 1000
  let k_max : ℚ := 100
  let ln_k_min := env.log k_min
  let ln_k_max := env.log k_max
  { k_min := k_min
    k_max := k_max
    ln_k_min := ln_k_min
    ln_k_max := ln_k_max
    ln_k_array := linspace ln_k_min ln_k_max env.halo_npoints
    redshift := redshift
    cosmo := cosmo
    halo_dict := halo_dict
    mass := mass_func
    c0 := halo_dict.c0 / (1 + redshift)
    beta := halo_dict.beta
    alpha := -1
    delta_v := cosmo.delta_v
    rho_bar := cosmo.rho_bar
    hubble := cosmo.hubble
    local_hod := input_hod
    n_bar_over_rho_bar := none
    n_bar := none
    ln_r_v_spline := none
    ln_concen_spline := none
    ln_halo_norm_spline := none
    h_m_spline := none
    h_g_spline := none
    pp_mm_spline := none
    pp_gm_spline := none
    pp_gg_spline := none
    initialized_h_m := false
    initialized_h_g := false
    initialized_pp_mm := false
    initialized_pp_gm := false
    initialized_pp_gg := false }

/-- Halo.__init__ continued: `self._calculate_n_bar()` then
`self._initialize_halo_splines()` run eagerly on the fresh attributes. -/
def Halo.init (env : Env) (redshift : ℚ) (input_hod : HOD) (cosmo : Cosmo)
    (mass_func : MassFn) (halo_dict : HaloDict) : HaloState :=
  Halo.initialize_halo_splines env (Halo.calculate_n_bar env
    (Halo.fresh_state env redshift input_hod cosmo mass_func halo_dict))

/-- Halo.set_hod: replace the HOD, recompute `n_bar` at once, and clear the
`h_g`, `pp_mm`, `pp_gm`, `pp_gg` flags (note: the source clears
`_initialized_pp_mm` here, and does not clear `_initialized_h_m`). -/
def Halo.set_hod (env : Env) (st : HaloState) (input_hod : HOD) : HaloState :=
  let st := { st with local_hod := input_hod }
  let st := Halo.calculate_n_bar env st
  { st with
    initialized_h_g := false
    initialized_pp_mm := false
    initialized_pp_gm := false
    initialized_pp_gg := false }

/-- Halo.set_halo: store the new shape parameters, push them into the mass
function, and re-run set_hod on the current HOD. The source neither
rebuilds the geometry splines nor clears `_initialized_h_m` here. -/
def Halo.set_halo (env : Env) (st : HaloState) (halo_dict : HaloDict) : HaloState :=
  let st := { st with
    c0 := halo_dict.c0 / (1 + st.redshift)
    beta := halo_dict.beta
    alpha := -1 }
  let st := { st with mass := env.massSetHalo st.mass halo_dict }
  Halo.set_hod env st st.local_hod

/-- Halo.virial_radius (spline-backed public accessor). -/
def Halo.virial_radius (env : Env) (st : HaloState) (mass : ℚ) : ℚ :=
  env.exp ((st.ln_r_v_spline.getD (fun _ => 0)) (env.log mass))

/-- Halo.concentration (spline-backed public accessor). -/
def Halo.concentration (env : Env) (st : HaloState) (mass : ℚ) : ℚ :=
  env.exp ((st.ln_concen_spline.getD (fun _ => 0)) (env.log mass))

/-- Halo.halo_normalization (spline-backed public accessor). -/
def Halo.halo_normalization (env : Env) (st : HaloState) (mass : ℚ) : ℚ :=
  env.exp ((st.ln_halo_norm_spline.getD (fun _ => 0)) (env.log mass))

/-- Halo.y: analytic NFW profile Fourier transform (White 2001). -/
def Halo.y (env : Env) (st : HaloState) (ln_k mass : ℚ) : ℚ :=
  let k := env.exp ln_k / st.hubble
  let con := Halo.concentration env st mass
  let con_plus := 1 + con
  let z := k * Halo.virial_radius env st mass / con
  let si_z := env.Si z
  let ci_z := env.Ci z
  let si_cz := env.Si (con_plus * z)
  let ci_cz := env.Ci (con_plus * z)
  let rho_km := env.cos z * (ci_cz - ci_z) + env.sin z * (si_cz - si_z) -
    env.sin (con * z) / (con_plus * z)
  let mass_k := env.log con_plus - con / con_plus
  rho_km / mass_k

/-- Shared shape of the five `_h_m`/`_pp_mm`/... spline readers: evaluate
the (possibly missing) spline at log k inside [k_min, k_max], 0 outside.
numpy.where touches the spline attribute in either branch, hence the
`Option.map`. -/
def splineRead (env : Env) (st : HaloState) (o : Option (ℚ → ℚ)) (k : ℚ) : Option ℚ :=
  o.map (fun s => if st.k_min ≤ k ∧ k ≤ st.k_max then s (env.log k) else 0)

/-- Halo._h_m. -/
def Halo.h_m (env : Env) (st : HaloState) (k : ℚ) : Option ℚ :=
  splineRead env st st.h_m_spline k

/-- Halo._pp_mm. -/
def Halo.pp_mm (env : Env) (st : HaloState) (k : ℚ) : Option ℚ :=
  splineRead env st st.pp_mm_spline k

/-- Halo._pp_gm. -/
def Halo.pp_gm (env : Env) (st : HaloState) (k : ℚ) : Option ℚ :=
  splineRead env st st.pp_gm_spline k

/-- Halo._h_g. -/
def Halo.h_g (env : Env) (st : HaloState) (k : ℚ) : Option ℚ :=
  splineRead env st st.h_g_spline k

/-- Halo._pp_gg. -/
def Halo.pp_gg (env : Env) (st : HaloState) (k : ℚ) : Option ℚ :=
  splineRead env st st.pp_gg_spline k

/-- Halo._h_m_integrand. -/
def Halo.h_m_integrand (env : Env) (st : HaloState) (ln_nu ln_k : ℚ) : ℚ :=
  let nu := env.exp ln_nu
  let mass := st.mass.mass nu
  nu * st.mass.f_nu nu * st.mass.bias_nu nu * Halo.y env st ln_k mass

/-- Halo._h_g_integrand. -/
def Halo.h_g_integrand (env : Env) (st : HaloState) (ln_nu ln_k : ℚ) : ℚ :=
  let nu := env.exp ln_nu
  let mass := st.mass.mass nu
  nu * st.mass.f_nu nu * st.mass.bias_nu nu * Halo.y env st ln_k mass *
    st.local_hod.first_moment mass / (mass * st.n_bar_over_rho_bar.getD 0)

/-- Halo._pp_mm_integrand. -/
def Halo.pp_mm_integrand (env : Env) (st : HaloState) (ln_nu ln_k : ℚ) : ℚ :=
  let nu := env.exp ln_nu
  let mass := st.mass.mass nu
  let y := Halo.y env st ln_k mass
  nu * st.mass.f_nu nu * mass * y * y

/-- Halo._pp_gg_integrand (Poisson power rule on the second moment). -/
def Halo.pp_gg_integrand (env : Env) (st : HaloState) (ln_nu ln_k : ℚ) : ℚ :=
  let nu := env.exp ln_nu
  let mass := st.mass.mass nu
  let y := Halo.y env st ln_k mass
  let n_pair := st.local_hod.second_moment mass
  if n_pair < 1 then
    nu * st.mass.f_nu nu * n_pair * y / (mass * st.n_bar.getD 0 * st.n_bar.getD 0)
  else
    nu * st.mass.f_nu nu * n_pair * y * y / (mass * st.n_bar.getD 0 * st.n_bar.getD 0)

/-- Halo._pp_gm_integrand (Poisson power rule on the first moment). -/
def Halo.pp_gm_integrand (env : Env) (st : HaloState) (ln_nu ln_k : ℚ) : ℚ :=
  let nu := env.exp ln_nu
  let y := Halo.y env st ln_k (st.mass.mass nu)
  let n_exp := st.local_hod.first_moment (st.mass.mass nu)
  if n_exp < 1 then
    nu * st.mass.f_nu nu * n_exp * y
  else
    nu * st.mass.f_nu nu * n_exp * y * y

/-- Table of romberg values built by Halo._initialize_h_m, one per grid
wavenumber, integrated from the unadjusted nu_min. -/
def Halo.h_m_values (env : Env) (st : HaloState) : List ℚ :=
  st.ln_k_array.map (fun ln_k =>
    env.romberg (fun ln_nu => Halo.h_m_integrand env st ln_nu ln_k)
      (env.log st.mass.nu_min) (env.log st.mass.nu_max)
      env.global_precision env.halo_precision env.divmax)

/-- Halo._initialize_h_m. -/
def Halo.initialize_h_m (env : Env) (st : HaloState) : HaloState :=
  { st with
    h_m_spline := some (env.fitSpline st.ln_k_array (Halo.h_m_values env st))
    initialized_h_m := true }

/-- Table built by Halo._initialize_h_g. The source computes an
HOD-adjusted `nu_min` here but then passes `self.mass.nu_min` (the
unadjusted floor) as the romberg lower limit; the adjusted value is used
only by the commented-out quad call. -/
def Halo.h_g_values (env : Env) (st : HaloState) : List ℚ :=
  let nu_min :=
    if st.local_hod.first_moment_zero > -1 ∧
        st.local_hod.first_moment_zero > env.exp st.mass.ln_mass_min then
      st.mass.nu st.local_hod.first_moment_zero
    else
      st.mass.nu_min
  let _ := nu_min
  st.ln_k_array.map (fun ln_k =>
    env.romberg (fun ln_nu => Halo.h_g_integrand env st ln_nu ln_k)
      (env.log st.mass.nu_min) (env.log st.mass.nu_max)
      env.global_precision env.halo_precision env.divmax)

/-- Halo._initialize_h_g. -/
def Halo.initialize_h_g (env : Env) (st : HaloState) : HaloState :=
  { st with
    h_g_spline := some (env.fitSpline st.ln_k_array (Halo.h_g_values env st))
    initialized_h_g := true }

/-- Table built by Halo._initialize_pp_mm (each entry divided by rho_bar). -/
def Halo.pp_mm_values (env : Env) (st : HaloState) : List ℚ :=
  st.ln_k_array.map (fun ln_k =>
    env.romberg (fun ln_nu => Halo.pp_mm_integrand env st ln_nu ln_k)
      (env.log st.mass.nu_min) (env.log st.mass.nu_max)
      env.global_precision env.halo_precision env.divmax / st.rho_bar)

/-- Halo._initialize_pp_mm. -/
def Halo.initialize_pp_mm (env : Env) (st : HaloState) : HaloState :=
  { st with
    pp_mm_spline := some (env.fitSpline st.ln_k_array (Halo.pp_mm_values env st))
    initialized_pp_mm := true }

/-- Table built by Halo._initialize_pp_gg: lower limit raised to the
second-moment-zero mass when above the floor; each entry multiplied by
rho_bar. -/
def Halo.pp_gg_values (env : Env) (st : HaloState) : List ℚ :=
  let nu_min :=
    if st.local_hod.second_moment_zero > -1 ∧
        st.local_hod.second_moment_zero > env.exp st.mass.ln_mass_min then
      st.mass.nu st.local_hod.second_moment_zero
    else
      st.mass.nu_min
  st.ln_k_array.map (fun ln_k =>
    env.romberg (fun ln_nu => Halo.pp_gg_integrand env st ln_nu ln_k)
      (env.log nu_min) (env.log st.mass.nu_max)
      env.global_precision env.halo_precision env.divmax * st.rho_bar)

/-- Halo._initialize_pp_gg. -/
def Halo.initialize_pp_gg (env : Env) (st : HaloState) : HaloState :=
  { st with
    pp_gg_spline := some (env.fitSpline st.ln_k_array (Halo.pp_gg_values env st))
    initialized_pp_gg := true }

/-- Table built by Halo._initialize_pp_gm: lower limit raised to the
first-moment-zero mass when above the floor; each entry divided by n_bar. -/
def Halo.pp_gm_values (env : Env) (st : HaloState) : List ℚ :=
  let nu_min :=
    if st.local_hod.first_moment_zero > -1 ∧
        st.local_hod.first_moment_zero > env.exp st.mass.ln_mass_min then
      st.mass.nu st.local_hod.first_moment_zero
    else
      st.mass.nu_min
  st.ln_k_array.map (fun ln_k =>
    env.romberg (fun ln_nu => Halo.pp_gm_integrand env st ln_nu ln_k)
      (env.log nu_min) (env.log st.mass.nu_max)
      env.global_precision env.halo_precision env.divmax / st.n_bar.getD 0)

/-- Halo._initialize_pp_gm. -/
def Halo.initialize_pp_gm (env : Env) (st : HaloState) : HaloState :=
  { st with
    pp_gm_spline := some (env.fitSpline st.ln_k_array (Halo.pp_gm_values env st))
    initialized_pp_gm := true }

/-- The guard `if not self._initialized_h_m: self._initialize_h_m()`. -/
def Halo.ensure_h_m (env : Env) (st : HaloState) : HaloState :=
  if st.initialized_h_m then st else Halo.initialize_h_m env st

/-- The guard for `_initialize_h_g` (base-class builder). -/
def Halo.ensure_h_g (env : Env) (st : HaloState) : HaloState :=
  if st.initialized_h_g then st else Halo.initialize_h_g env st

/-- The guard for `_initialize_pp_mm`. -/
def Halo.ensure_pp_mm (env : Env) (st : HaloState) : HaloState :=
  if st.initialized_pp_mm then st else Halo.initialize_pp_mm env st

/-- The guard for `_initialize_pp_gm`. -/
def Halo.ensure_pp_gm (env : Env) (st : HaloState) : HaloState :=
  if st.initialized_pp_gm then st else Halo.initialize_pp_gm env st

/-- The guard for `_initialize_pp_gg`. -/
def Halo.ensure_pp_gg (env : Env) (st : HaloState) : HaloState :=
  if st.initialized_pp_gg then st else Halo.initialize_pp_gg env st

/-- Halo.power_mm: ensure h_m and pp_mm, then
`linear_power(k) * h_m(k)^2 + pp_mm(k)`. -/
def Halo.power_mm (env : Env) (st : HaloState) (k : ℚ) : HaloState × Option ℚ :=
  let st := Halo.ensure_h_m env st
  let st := Halo.ensure_pp_mm env st
  (st, do
    let a ← Halo.h_m env st k
    let b ← Halo.pp_mm env st k
    pure (st.cosmo.linear_power k * a * a + b))

/-- Halo.power_gm. -/
def Halo.power_gm (env : Env) (st : HaloState) (k : ℚ) : HaloState × Option ℚ :=
  let st := Halo.ensure_h_m env st
  let st := Halo.ensure_h_g env st
  let st := Halo.ensure_pp_gm env st
  (st, do
    let a ← Halo.h_g env st k
    let b ← Halo.h_m env st k
    let c ← Halo.pp_gm env st k
    pure (st.cosmo.linear_power k * a * b + c))

/-- Halo.power_mg (defined as power_gm). -/
def Halo.power_mg (env : Env) (st : HaloState) (k : ℚ) : HaloState × Option ℚ :=
  Halo.power_gm env st k

/-- Halo.power_gg. -/
def Halo.power_gg (env : Env) (st : HaloState) (k : ℚ) : HaloState × Option ℚ :=
  let st := Halo.ensure_h_g env st
  let st := Halo.ensure_pp_gg env st
  (st, do
    let a ← Halo.h_g env st k
    let b ← Halo.pp_gg env st k
    pure (st.cosmo.linear_power k * a * a + b))

/-- HaloExclusion._mass_window: the exclusion window in Fourier space,
evaluated at radius R = 2 * virial_radius(mass). -/
def HaloExclusion.mass_window (env : Env) (st : HaloState) (mass ln_k : ℚ) : ℚ :=
  let k := env.exp ln_k
  let R := 2 * Halo.virial_radius env st mass
  let kR := k * R
  (kR * env.cos kR + kR * kR * kR * env.Ci kR + (2 - kR * kR) * env.sin kR) /
    (3 * kR)

/-- The window shape as a one-variable function of x = k * R; used to state
that `mass_window` is this shape evaluated at k * (2 * virial_radius). -/
def HaloExclusion.window_shape (env : Env) (x : ℚ) : ℚ :=
  (x * env.cos x + x * x * x * env.Ci x + (2 - x * x) * env.sin x) / (3 * x)

/-- HaloExclusion._h_g_integrand: the base h_g integrand additionally
multiplied by the mass window. -/
def HaloExclusion.h_g_integrand (env : Env) (st : HaloState) (ln_nu ln_k : ℚ) : ℚ :=
  let nu := env.exp ln_nu
  let mass := st.mass.mass nu
  nu * HaloExclusion.mass_window env st mass ln_k * st.mass.f_nu nu *
    st.mass.bias_nu nu * Halo.y env st ln_k mass *
    st.local_hod.first_moment mass / (mass * st.n_bar_over_rho_bar.getD 0)

/-- Table built by HaloExclusion._initialize_h_g; unlike the base class
this override does pass the HOD-adjusted lower limit to romberg. -/
def HaloExclusion.h_g_values (env : Env) (st : HaloState) : List ℚ :=
  let nu_min :=
    if st.local_hod.first_moment_zero > -1 ∧
        st.local_hod.first_moment_zero > env.exp st.mass.ln_mass_min then
      st.mass.nu st.local_hod.first_moment_zero
    else
      st.mass.nu_min
  st.ln_k_array.map (fun ln_k =>
    env.romberg (fun ln_nu => HaloExclusion.h_g_integrand env st ln_nu ln_k)
      (env.log nu_min) (env.log st.mass.nu_max)
      env.global_precision env.halo_precision env.divmax)

/-- HaloExclusion._initialize_h_g. -/
def HaloExclusion.initialize_h_g (env : Env) (st : HaloState) : HaloState :=
  { st with
    h_g_spline := some (env.fitSpline st.ln_k_array (HaloExclusion.h_g_values env st))
    initialized_h_g := true }

/-- The guard for the exclusion override of `_initialize_h_g`. -/
def HaloExclusion.ensure_h_g (env : Env) (st : HaloState) : HaloState :=
  if st.initialized_h_g then st else HaloExclusion.initialize_h_g env st

/-- HaloExclusion inherits Halo.__init__ unchanged. -/
def HaloExclusion.init (env : Env) (redshift : ℚ) (input_hod : HOD) (cosmo : Cosmo)
    (mass_func : MassFn) (halo_dict : HaloDict) : HaloState :=
  Halo.init env redshift input_hod cosmo mass_func halo_dict

/-- HaloExclusion inherits power_mm unchanged from Halo. -/
def HaloExclusion.power_mm : Env → HaloState → ℚ → HaloState × Option ℚ :=
  Halo.power_mm

/-- HaloExclusion.power_gm, translated exactly: the second guard tests
`_initialized_pp_gg` but runs `_initialize_pp_gm`; the combination uses the
non-linear power_mm (evaluated first, mutating the state) as the 2-halo
factor. -/
def HaloExclusion.power_gm (env : Env) (st : HaloState) (k : ℚ) :
    HaloState × Option ℚ :=
  let st := HaloExclusion.ensure_h_g env st
  let st := if st.initialized_pp_gg then st else Halo.initialize_pp_gm env st
  let p := Halo.power_mm env st k
  let st := p.1
  (st, do
    let pmm ← p.2
    let a ← Halo.h_g env st k
    let b ← Halo.h_m env st k
    let c ← Halo.pp_gm env st k
    pure (pmm * a * b + c))

/-- HaloExclusion.power_mg (defined as power_gm). -/
def HaloExclusion.power_mg (env : Env) (st : HaloState) (k : ℚ) :
    HaloState × Option ℚ :=
  HaloExclusion.power_gm env st k

/-- HaloExclusion.power_gg: the 2-halo factor is the model's own non-linear
power_mm, not the linear power. -/
def HaloExclusion.power_gg (env : Env) (st : HaloState) (k : ℚ) :
    HaloState × Option ℚ :=
  let st := HaloExclusion.ensure_h_g env st
  let st := Halo.ensure_pp_gg env st
  let p := Halo.power_mm env st k
  let st := p.1
  (st, do
    let pmm ← p.2
    let a ← Halo.h_g env st k
    let b ← Halo.pp_gg env st k
    pure (pmm * a * a + b))

/-- State of a HaloFit instance: the base halo state plus the HALOFIT
coefficients derived by `_initialize_halo_fit` and
`_initialize_sigma_spline` (fields default to 0 before that runs; the
`initialized_sigma_spline` flag guards every read). -/
structure FitState extends HaloState where
  f_1 : ℚ
  f_2 : ℚ
  f_3 : ℚ
  omega_l_fit : ℚ
  w_fit : ℚ
  initialized_sigma_spline : Bool
  ln_R_array : List ℚ
  ln_sigma2_array : List ℚ
  k_s : ℚ
  n_eff : ℚ
  curv : ℚ
  a_n : ℚ
  b_n : ℚ
  c_n : ℚ
  gamma_n : ℚ
  alpha_n : ℚ
  beta_n : ℚ
  mu_n : ℚ
  nu_n : ℚ

/-- HaloFit._sigma2_integrand. -/
def HaloFit.sigma2_integrand (env : Env) (fst : FitState) (ln_k R : ℚ) : ℚ :=
  let k := env.exp ln_k
  fst.cosmo.delta_k k * env.exp (-k * k * R * R)

/-- HaloFit._initialize_sigma_spline: build the smoothed-variance table,
locate the sigma2 = 1 scale by inverse-spline lookup, extract the first
and second log-derivatives there, and derive the eight Takahashi2012
coefficients. The source never sets `_initialized_sigma_spline` to True
here. -/
def HaloFit.initialize_sigma_spline (env : Env) (fst : FitState) : FitState :=
  let ln_R_array := linspace (env.log (1 / 10)) (env.log 10) env.halo_npoints
  let ln_sigma2_array := ln_R_array.map (fun ln_R =>
    env.log (env.romberg
      (fun ln_k => HaloFit.sigma2_integrand env fst ln_k (env.exp ln_R))
      fst.ln_k_min fst.ln_k_max
      env.global_precision env.halo_precision env.divmax))
  let k_s := 1 / env.exp (env.fitSpline ln_sigma2_array.reverse ln_R_array.reverse 0)
  let dv := env.splineDerivs ln_R_array ln_sigma2_array (env.log (1 / k_s))
  let n_eff := -dv.1 - 3
  let curv := -dv.2
  { fst with
    ln_R_array := ln_R_array
    ln_sigma2_array := ln_sigma2_array
    k_s := k_s
    n_eff := n_eff
    curv := curv
    a_n := env.rpow 10
      (1.5222 + 2.8553 * n_eff + 2.3706 * n_eff * n_eff +
        0.9903 * n_eff * n_eff * n_eff +
        0.2250 * n_eff * n_eff * n_eff * n_eff +
        -0.6038 * curv + 0.1749 * fst.omega_l_fit * (1 + fst.w_fit))
    b_n := env.rpow 10
      (-0.5642 + 0.5864 * n_eff + 0.5716 * n_eff * n_eff +
        -1.5474 * curv + 0.2279 * fst.omega_l_fit * (1 + fst.w_fit))
    c_n := env.rpow 10
      (0.3698 + 2.0404 * n_eff + 0.8161 * n_eff * n_eff + 0.5869 * curv)
    gamma_n := 0.1971 - 0.0843 * n_eff + 0.8460 * curv
    alpha_n := |6.0835 + 1.3373 * n_eff - 0.1959 * n_eff * n_eff +
      -5.5274 * curv|
    beta_n := 2.0379 - 0.7354 * n_eff + 0.3157 * n_eff * n_eff +
      1.2490 * n_eff * n_eff * n_eff +
      0.3980 * n_eff * n_eff * n_eff * n_eff + -0.1682 * curv
    mu_n := 0
    nu_n := env.rpow 10 (5.2105 + 3.6902 * n_eff) }

/-- HaloFit.__init__: run Halo.__init__, then `_initialize_halo_fit`
(eagerly), then mark the sigma spline uninitialized. -/
def HaloFit.init (env : Env) (redshift : ℚ) (input_hod : HOD) (cosmo : Cosmo)
    (mass_func : MassFn) (halo_dict : HaloDict) : FitState :=
  let base := Halo.init env redshift input_hod cosmo mass_func halo_dict
  { toHaloState := base
    f_1 := env.rpow base.cosmo.omega_m (-0.0307)
    f_2 := env.rpow base.cosmo.omega_m (-0.0585)
    f_3 := env.rpow base.cosmo.omega_m 0.0743
    omega_l_fit := base.cosmo.omega_l
    w_fit := base.cosmo.w redshift
    initialized_sigma_spline := false
    ln_R_array := []
    ln_sigma2_array := []
    k_s := 0
    n_eff := 0
    curv := 0
    a_n := 0
    b_n := 0
    c_n := 0
    gamma_n := 0
    alpha_n := 0
    beta_n := 0
    mu_n := 0
    nu_n := 0 }

/-- HaloFit._f. -/
def HaloFit.f_supp (fst : FitState) (k : ℚ) : ℚ :=
  let y := k / fst.k_s
  y / 4 + y * y / 8

/-- HaloFit._delta2_Q. -/
def HaloFit.delta2_Q (env : Env) (fst : FitState) (k : ℚ) : ℚ :=
  let delta_k := fst.cosmo.delta_k k
  delta_k * (env.rpow (1 + delta_k) fst.beta_n / (1 + fst.alpha_n * delta_k) *
    env.exp (-(HaloFit.f_supp fst k)))

/-- HaloFit._delta2_prime_H (the source passes the raw wavenumber as y). -/
def HaloFit.delta2_prime_H (env : Env) (fst : FitState) (y : ℚ) : ℚ :=
  fst.a_n * env.rpow y (3 * fst.f_1) /
    (1 + fst.b_n * env.rpow y fst.f_2 +
      env.rpow (fst.c_n * fst.f_3 * y) (3 - fst.gamma_n))

/-- HaloFit._delta2_H. -/
def HaloFit.delta2_H (env : Env) (fst : FitState) (k : ℚ) : ℚ :=
  let y := k / fst.k_s
  HaloFit.delta2_prime_H env fst k / (1 + fst.mu_n / y + fst.nu_n / (y * y))

/-- HaloFit.power_mm: the HALOFIT fitting formula
`2 pi^2 / k^3 * (delta2_Q(k) + delta2_H(k))`; it has no [k_min, k_max]
domain guard and reads no term spline. -/
def HaloFit.power_mm (env : Env) (fst : FitState) (k : ℚ) : FitState × ℚ :=
  let fst := if fst.initialized_sigma_spline then fst
    else HaloFit.initialize_sigma_spline env fst
  (fst, 2 * env.pi * env.pi / env.rpow k 3 *
    (HaloFit.delta2_Q env fst k + HaloFit.delta2_H env fst k))

/-- HaloFit.power_gm: galaxy terms from the halo model, combined against
the HALOFIT power_mm as 2-halo factor. -/
def HaloFit.power_gm (env : Env) (fst : FitState) (k : ℚ) : FitState × Option ℚ :=
  let fst := { fst with toHaloState := Halo.ensure_h_m env fst.toHaloState }
  let fst := { fst with toHaloState := Halo.ensure_h_g env fst.toHaloState }
  let fst := { fst with toHaloState := Halo.ensure_pp_gm env fst.toHaloState }
  let p := HaloFit.power_mm env fst k
  let fst := p.1
  (fst, do
    let a ← Halo.h_g env fst.toHaloState k
    let b ← Halo.h_m env fst.toHaloState k
    let c ← Halo.pp_gm env fst.toHaloState k
    pure (p.2 * a * b + c))

/-- HaloFit.power_mg (defined as power_gm). -/
def HaloFit.power_mg (env : Env) (fst : FitState) (k : ℚ) : FitState × Option ℚ :=
  HaloFit.power_gm env fst k

/-- HaloFit.power_gg. -/
def HaloFit.power_gg (env : Env) (fst : FitState) (k : ℚ) : FitState × Option ℚ :=
  let fst := { fst with toHaloState := Halo.ensure_h_g env fst.toHaloState }
  let fst := { fst with toHaloState := Halo.ensure_pp_gg env fst.toHaloState }
  let p := HaloFit.power_mm env fst k
  let fst := p.1
  (fst, do
    let a ← Halo.h_g env fst.toHaloState k
    let b ← Halo.pp_gg env fst.toHaloState k
    pure (p.2 * a * a + b))

/-- Replace the base-class part of a HaloFit state (the effect of the
inherited lazy initializers on self). -/
def withBase (fst : FitState) (b : HaloState) : FitState :=
  { fst with toHaloState := b }

/-- The value a present spline reader yields: spline at log k inside the
domain, 0 outside. -/
def readv (env : Env) (st : HaloState) (f : ℚ → ℚ) (k : ℚ) : ℚ :=
  if st.k_min ≤ k ∧ k ≤ st.k_max then f (env.log k) else 0

/-- The basic consistency invariant of the lazy caches: whenever a term's
initialized flag is set, its spline attribute exists. Every state produced
by the constructor and the mutators satisfies it. -/
def CacheWF (st : HaloState) : Prop :=
  (st.initialized_h_m = true → st.h_m_spline.isSome = true) ∧
  (st.initialized_h_g = true → st.h_g_spline.isSome = true) ∧
  (st.initialized_pp_mm = true → st.pp_mm_spline.isSome = true) ∧
  (st.initialized_pp_gm = true → st.pp_gm_spline.isSome = true) ∧
  (st.initialized_pp_gg = true → st.pp_gg_spline.isSome = true)

/-! Concrete instantiations of the abstract environment and collaborators,
used to evaluate the model at explicit inputs. -/

/-- A minimal concrete environment: identity for exp/log, constant
quadrature and spline fit. -/
def envC : Env :=
  { exp := fun x => x
    log := fun x => x
    cos := fun _ => 0
    sin := fun _ => 0
    Si := fun _ => 0
    Ci := fun _ => 0
    hyp2f1 := fun _ _ _ _ => 1
    rpow := fun _ _ => 1
    pi := 3
    romberg := fun _ _ _ _ _ _ => 1
    fitSpline := fun _ _ _ => 1
    splineDerivs := fun _ _ _ => (0, 0)
    massSetHalo := fun m _ => m
    halo_npoints := 2
    global_precision := 0
    halo_precision := 0
    divmax := 0 }

/-- A concrete mass-function collaborator. -/
def mfC : MassFn :=
  { nu := fun x => x
    mass := fun x => x
    f_nu := fun _ => 1
    bias_nu := fun _ => 1
    nu_min := 2
    nu_max := 9
    ln_mass_min := 1
    m_star := 1
    ln_mass_array := [0] }

/-- A concrete cosmology collaborator. -/
def cosmoC : Cosmo :=
  { linear_power := fun _ => 1
    delta_k := fun _ => 1
    delta_v := 1
    rho_bar := 1
    hubble := 1
    omega_m := 1
    omega_l := 1
    w := fun _ => -1 }

/-- A concrete HOD with unit moments and no zero-moment thresholds. -/
def hodC : HOD :=
  { first_moment := fun _ => 1
    second_moment := fun _ => 1
    first_moment_zero := -1
    second_moment_zero := -1 }

/-- A second concrete HOD, different from hodC. -/
def hodB : HOD :=
  { first_moment := fun _ => 2
    second_moment := fun _ => 5
    first_moment_zero := -1
    second_moment_zero := -1 }

/-- An HOD whose first moment is everywhere 1/2 (sub-Poisson). -/
def hodHalf : HOD :=
  { first_moment := fun _ => 1 / 2
    second_moment := fun _ => 1 / 2
    first_moment_zero := -1
    second_moment_zero := -1 }

/-- An HOD with identically zero occupation. -/
def hodZ : HOD :=
  { first_moment := fun _ => 0
    second_moment := fun _ => 0
    first_moment_zero := -1
    second_moment_zero := -1 }

/-- Concrete halo-shape parameters. -/
def hdC : HaloDict := { c0 := 1, beta := 1 }

/-- A second set of halo-shape parameters, different from hdC. -/
def hdB : HaloDict := { c0 := 7, beta := 2 }

/-- A fresh standard-variant state built over the concrete collaborators. -/
def stH0 : HaloState := Halo.init envC 0 hodC cosmoC mfC hdC

/-- stH0 after one power_mm call: h_m and pp_mm initialized. -/
def stI : HaloState := (Halo.power_mm envC stH0 1).1

/-- A fresh exclusion-variant state. -/
def stE0 : HaloState := HaloExclusion.init envC 0 hodC cosmoC mfC hdC

/-- stE0 after one exclusion power_gg call: h_g, pp_gg, h_m and pp_mm
initialized, pp_gm not. -/
def stE1 : HaloState := (HaloExclusion.power_gg envC stE0 1).1

/-- A fully initialized exclusion-variant state: power_gm of the base
class builds h_m, h_g and pp_gm, then exclusion power_gg builds pp_gg and
pp_mm, so all five term splines exist and all five flags are set. -/
def stE2 : HaloState :=
  (HaloExclusion.power_gg envC ((Halo.power_gm envC stE0 1).1) 1).1

/-- A fresh state with the sub-Poisson HOD. -/
def stHalf : HaloState := Halo.init envC 0 hodHalf cosmoC mfC hdC

/-- A fresh state with hodB (moments 2 and 5, super-Poisson). -/
def stTwo : HaloState := Halo.init envC 0 hodB cosmoC mfC hdC

/-- Environment whose quadrature is a one-point rule: it returns
`(b - a) * f(a)`, so the integral of a pointwise-zero integrand is 0. -/
def envH : Env := { envC with romberg := fun f a b _ _ _ => (b - a) * f a }

/-- Environment whose quadrature reports its lower integration limit and
whose spline fit returns the first fitted value; it makes the integration
bounds actually passed to romberg observable. -/
def envG : Env :=
  { envC with
    romberg := fun _ a _ _ _ _ => a
    fitSpline := fun _ ys _ => ys.headD 0 }

/-- Mass function whose nu(mass) is constantly 5, so the HOD-adjusted lower
peak height (5) differs from the floor nu_min = 2. -/
def mfG : MassFn := { mfC with nu := fun _ => 5 }

/-- HOD with a first-moment-zero threshold of 3, above the exp(ln_mass_min)
floor of envG/mfG. -/
def hodG : HOD := { hodC with first_moment_zero := 3 }

/-- State for observing the integration lower bound of _initialize_h_g. -/
def stG : HaloState := Halo.init envG 0 hodG cosmoC mfG hdC

/-- Environment whose quadrature returns the constant 7, making eager
constructor-time integration observable in the stored n_bar. -/
def env7 : Env := { envC with romberg := fun _ _ _ _ _ _ => 7 }

/-- Cosmology with rho_bar = 2. -/
def cosmo2 : Cosmo := { cosmoC with rho_bar := 2 }

/-- State built by the constructor under env7/cosmo2: its n_bar must be
7 * 2 = 14 if and only if the constructor ran the integral eagerly. -/
def st7 : HaloState := Halo.init env7 0 hodC cosmo2 mfC hdC

/-- Environment for evaluating the HALOFIT formula at an out-of-domain
wavenumber: exp is the constant 2, the fit returns 0, derivatives are 0. -/
def envF : Env :=
  { envC with
    exp := fun _ => 2
    log := fun _ => 0
    fitSpline := fun _ _ _ => 0 }

/-- A fresh HaloFit state over envF. -/
def fstF : FitState := HaloFit.init envF 0 hodC cosmoC mfC hdC

/-- A fresh HaloFit state over the minimal concrete environment. -/
def fstD : FitState := HaloFit.init envC 0 hodC cosmoC mfC hdC

/-! Theorems. General lemmas first, then one theorem per claim (with its
witness or counterexample where required). -/

theorem splineRead_some (env : Env) (st : HaloState) (f : ℚ → ℚ) (k : ℚ) :
    splineRead env st (some f) k = some (readv env st f k) := rfl

theorem splineRead_out (env : Env) (st : HaloState) (k : ℚ)
    {o : Option (ℚ → ℚ)} (ho : o.isSome = true)
    (hk : ¬(st.k_min ≤ k ∧ k ≤ st.k_max)) :
    splineRead env st o k = some 0 := by
  obtain ⟨f, rfl⟩ := Option.isSome_iff_exists.mp ho
  simp [splineRead, hk]

theorem initialize_halo_splines_n_bar (env : Env) (st : HaloState) :
    (Halo.initialize_halo_splines env st).n_bar = st.n_bar := rfl

theorem initialize_halo_splines_nbor (env : Env) (st : HaloState) :
    (Halo.initialize_halo_splines env st).n_bar_over_rho_bar =
      st.n_bar_over_rho_bar := rfl

/-- If the HOD first moment vanishes identically and the quadrature is
honest on the zero function, `_calculate_n_bar` stores n_bar = 0 (and it
raises nothing: it is a total state transformer). -/
theorem calculate_n_bar_zero (env : Env) (st : HaloState)
    (hz : ∀ m, st.local_hod.first_moment m = 0)
    (hr : ∀ f a b t r d, (∀ x, f x = 0) → env.romberg f a b t r d = 0) :
    (Halo.calculate_n_bar env st).n_bar = some 0 ∧
    (Halo.calculate_n_bar env st).n_bar_over_rho_bar = some 0 := by
  have h0 : ∀ x, Halo.nbar_integrand env st x = 0 := by
    intro x
    simp [Halo.nbar_integrand, hz]
  constructor <;>
    simp [Halo.calculate_n_bar, hr _ _ _ _ _ _ h0]

/-- C10 (amended): the constructor leaves the five term caches
uninitialized (flags False, no spline attributes), but it eagerly computes
the mean galaxy density and the three geometry splines before returning. -/
theorem construction_cache_state (env : Env) (z : ℚ) (hod : HOD) (cm : Cosmo)
    (mf : MassFn) (hd : HaloDict) :
    (Halo.init env z hod cm mf hd).initialized_h_m = false ∧
    (Halo.init env z hod cm mf hd).initialized_h_g = false ∧
    (Halo.init env z hod cm mf hd).initialized_pp_mm = false ∧
    (Halo.init env z hod cm mf hd).initialized_pp_gm = false ∧
    (Halo.init env z hod cm mf hd).initialized_pp_gg = false ∧
    (Halo.init env z hod cm mf hd).h_m_spline = none ∧
    (Halo.init env z hod cm mf hd).h_g_spline = none ∧
    (Halo.init env z hod cm mf hd).pp_mm_spline = none ∧
    (Halo.init env z hod cm mf hd).pp_gm_spline = none ∧
    (Halo.init env z hod cm mf hd).pp_gg_spline = none ∧
    (Halo.init env z hod cm mf hd).n_bar.isSome = true ∧
    (Halo.init env z hod cm mf hd).n_bar_over_rho_bar.isSome = true ∧
    (Halo.init env z hod cm mf hd).ln_r_v_spline.isSome = true ∧
    (Halo.init env z hod cm mf hd).ln_concen_spline.isSome = true ∧
    (Halo.init env z hod cm mf hd).ln_halo_norm_spline.isSome = true :=
  ⟨rfl, rfl, rfl, rfl, rfl, rfl, rfl, rfl, rfl, rfl, rfl, rfl, rfl, rfl, rfl⟩

/-- C10 counterexample: under a quadrature returning the constant 7 and
rho_bar = 2, the state returned by the constructor already holds
n_bar = 7 * 2 = 14 and a fitted virial-radius spline: the mean density
integral and the geometry fits ran inside the constructor, not on first
read. -/
theorem constructor_populates_eagerly :
    st7.n_bar = some 14 ∧ st7.ln_r_v_spline.isSome = true ∧
    st7.initialized_h_m = false ∧ st7.h_m_spline.isNone = true := by
  refine ⟨?_, rfl, rfl, rfl⟩
  show some ((7 : ℚ) * 2) = some 14
  norm_num

/-- C2: set_halo stores the new c0/beta but leaves all three geometry
splines untouched (they still encode the old shape parameters), does not
clear the h_m flag nor the h_m spline, and clears only the pp_mm, h_g,
pp_gm, pp_gg flags — contradicting both the claim and the method's own
docstring that the class splines are re-initialized. -/
theorem set_halo_keeps_geometry_and_h_m (env : Env) (st : HaloState)
    (hd : HaloDict) :
    (Halo.set_halo env st hd).ln_r_v_spline = st.ln_r_v_spline ∧
    (Halo.set_halo env st hd).ln_concen_spline = st.ln_concen_spline ∧
    (Halo.set_halo env st hd).ln_halo_norm_spline = st.ln_halo_norm_spline ∧
    (Halo.set_halo env st hd).initialized_h_m = st.initialized_h_m ∧
    (Halo.set_halo env st hd).h_m_spline = st.h_m_spline ∧
    (Halo.set_halo env st hd).c0 = hd.c0 / (1 + st.redshift) ∧
    (Halo.set_halo env st hd).beta = hd.beta ∧
    (Halo.set_halo env st hd).initialized_pp_mm = false ∧
    (Halo.set_halo env st hd).initialized_h_g = false ∧
    (Halo.set_halo env st hd).initialized_pp_gm = false ∧
    (Halo.set_halo env st hd).initialized_pp_gg = false :=
  ⟨rfl, rfl, rfl, rfl, rfl, rfl, rfl, rfl, rfl, rfl, rfl⟩

/-- C3: on a fresh HaloExclusion instance, calling power_gg (which
initializes h_g and pp_gg) and then power_gm evaluates the pp_gm spline
without it ever being initialized: power_gm's guard tests the pp_gg flag,
so the rebuild of pp_gm is skipped and the read fails (none; in Python an
AttributeError). -/
theorem exclusion_power_gm_reads_uninitialized :
    stE1.initialized_h_g = true ∧ stE1.initialized_pp_gg = true ∧
    stE1.initialized_pp_gm = false ∧ stE1.pp_gm_spline.isNone = true ∧
    (HaloExclusion.power_gm envC stE1 1).2 = none := by
  decide

/-- C7: with a quadrature that reports its lower integration limit and a
fit that reports the first table entry, the h_g table built by the base
Halo._initialize_h_g records the unadjusted `mass.nu_min` as the lower
limit actually passed to romberg, even though the HOD first-moment-zero
adjustment condition holds and the adjusted lower peak height differs. -/
theorem h_g_lower_bound_unadjusted :
    (stG.local_hod.first_moment_zero > -1 ∧
      stG.local_hod.first_moment_zero > envG.exp stG.mass.ln_mass_min) ∧
    envG.log (stG.mass.nu stG.local_hod.first_moment_zero) ≠
      envG.log stG.mass.nu_min ∧
    ((Halo.initialize_h_g envG stG).h_g_spline.map (fun s => s 0)) =
      some (envG.log stG.mass.nu_min) := by
  decide

/-- C5 counterexample: with an identically zero HOD, `_calculate_n_bar`
completes normally (it is a total state transformer with no error path in
the source: no raise statement exists there, nor any ConfigurationError
type anywhere in the repository) and stores n_bar = 0. -/
theorem zero_hod_calculate_n_bar_total :
    (Halo.calculate_n_bar envH
      (Halo.fresh_state envH 0 hodZ cosmoC mfC hdC)).n_bar = some 0 := by
  show some (((9 : ℚ) - 2) * (2 * 0 * 1 / 2) * 1) = some 0
  norm_num

/-- C5 (amended): a zero-occupation HOD yields n_bar = 0 with no error
raised at the point n_bar is computed; the division by n_bar in the galaxy
terms is deferred to integrand-evaluation time, unguarded. -/
theorem zero_hod_n_bar_zero (env : Env) (z : ℚ) (hod : HOD) (cm : Cosmo)
    (mf : MassFn) (hd : HaloDict)
    (hz : ∀ m, hod.first_moment m = 0)
    (hr : ∀ f a b t r d, (∀ x, f x = 0) → env.romberg f a b t r d = 0) :
    (Halo.init env z hod cm mf hd).n_bar = some 0 ∧
    (Halo.init env z hod cm mf hd).n_bar_over_rho_bar = some 0 := by
  have hz0 : ∀ m,
      (Halo.fresh_state env z hod cm mf hd).local_hod.first_moment m = 0 := hz
  have key := calculate_n_bar_zero env (Halo.fresh_state env z hod cm mf hd) hz0 hr
  exact ⟨by rw [Halo.init, initialize_halo_splines_n_bar]; exact key.1,
    by rw [Halo.init, initialize_halo_splines_nbor]; exact key.2⟩

theorem zero_hod_n_bar_zero_witness :
    (Halo.init envH 0 hodZ cosmoC mfC hdC).n_bar = some 0 ∧
    (Halo.init envH 0 hodZ cosmoC mfC hdC).n_bar_over_rho_bar = some 0 :=
  zero_hod_n_bar_zero envH 0 hodZ cosmoC mfC hdC (fun _ => rfl)
    (fun f a b t r d hf => by
      show (b - a) * f a = 0
      rw [hf a, mul_zero])

theorem set_hod_initialized_h_m (env : Env) (st : HaloState) (h : HOD) :
    (Halo.set_hod env st h).initialized_h_m = st.initialized_h_m := rfl

theorem set_hod_initialized_pp_mm (env : Env) (st : HaloState) (h : HOD) :
    (Halo.set_hod env st h).initialized_pp_mm = false := rfl

theorem set_hod_h_m_spline (env : Env) (st : HaloState) (h : HOD) :
    (Halo.set_hod env st h).h_m_spline = st.h_m_spline := rfl

theorem set_hod_pp_mm_spline (env : Env) (st : HaloState) (h : HOD) :
    (Halo.set_hod env st h).pp_mm_spline = st.pp_mm_spline := rfl

theorem set_hod_k_min (env : Env) (st : HaloState) (h : HOD) :
    (Halo.set_hod env st h).k_min = st.k_min := rfl

theorem set_hod_k_max (env : Env) (st : HaloState) (h : HOD) :
    (Halo.set_hod env st h).k_max = st.k_max := rfl

theorem set_hod_cosmo (env : Env) (st : HaloState) (h : HOD) :
    (Halo.set_hod env st h).cosmo = st.cosmo := rfl

theorem set_hod_ln_k_array (env : Env) (st : HaloState) (h : HOD) :
    (Halo.set_hod env st h).ln_k_array = st.ln_k_array := rfl

theorem initialize_h_m_flag (env : Env) (st : HaloState) :
    (Halo.initialize_h_m env st).initialized_h_m = true := rfl

theorem initialize_h_m_initialized_pp_mm (env : Env) (st : HaloState) :
    (Halo.initialize_h_m env st).initialized_pp_mm = st.initialized_pp_mm := rfl

theorem initialize_h_m_h_m_spline (env : Env) (st : HaloState) :
    (Halo.initialize_h_m env st).h_m_spline =
      some (env.fitSpline st.ln_k_array (Halo.h_m_values env st)) := rfl

theorem initialize_h_m_pp_mm_spline (env : Env) (st : HaloState) :
    (Halo.initialize_h_m env st).pp_mm_spline = st.pp_mm_spline := rfl

theorem initialize_h_m_k_min (env : Env) (st : HaloState) :
    (Halo.initialize_h_m env st).k_min = st.k_min := rfl

theorem initialize_h_m_k_max (env : Env) (st : HaloState) :
    (Halo.initialize_h_m env st).k_max = st.k_max := rfl

theorem initialize_h_m_cosmo (env : Env) (st : HaloState) :
    (Halo.initialize_h_m env st).cosmo = st.cosmo := rfl

theorem initialize_h_m_ln_k_array (env : Env) (st : HaloState) :
    (Halo.initialize_h_m env st).ln_k_array = st.ln_k_array := rfl

theorem initialize_pp_mm_flag (env : Env) (st : HaloState) :
    (Halo.initialize_pp_mm env st).initialized_pp_mm = true := rfl

theorem initialize_pp_mm_h_m_spline (env : Env) (st : HaloState) :
    (Halo.initialize_pp_mm env st).h_m_spline = st.h_m_spline := rfl

theorem initialize_pp_mm_pp_mm_spline (env : Env) (st : HaloState) :
    (Halo.initialize_pp_mm env st).pp_mm_spline =
      some (env.fitSpline st.ln_k_array (Halo.pp_mm_values env st)) := rfl

theorem initialize_pp_mm_k_min (env : Env) (st : HaloState) :
    (Halo.initialize_pp_mm env st).k_min = st.k_min := rfl

theorem initialize_pp_mm_k_max (env : Env) (st : HaloState) :
    (Halo.initialize_pp_mm env st).k_max = st.k_max := rfl

theorem initialize_pp_mm_cosmo (env : Env) (st : HaloState) :
    (Halo.initialize_pp_mm env st).cosmo = st.cosmo := rfl

theorem initialize_pp_mm_ln_k_array (env : Env) (st : HaloState) :
    (Halo.initialize_pp_mm env st).ln_k_array = st.ln_k_array := rfl

/-- The h_m table depends only on HOD-independent state: set_hod leaves it
unchanged. -/
theorem h_m_values_set_hod (env : Env) (st : HaloState) (h : HOD) :
    Halo.h_m_values env (Halo.set_hod env st h) = Halo.h_m_values env st := rfl

/-- The pp_mm table depends only on HOD-independent state: set_hod leaves
it unchanged. -/
theorem pp_mm_values_set_hod (env : Env) (st : HaloState) (h : HOD) :
    Halo.pp_mm_values env (Halo.set_hod env st h) =
      Halo.pp_mm_values env st := rfl

theorem pp_mm_values_initialize_h_m (env : Env) (st : HaloState) :
    Halo.pp_mm_values env (Halo.initialize_h_m env st) =
      Halo.pp_mm_values env st := rfl

/-- C1 (amended): set_hod leaves the h_m cache untouched (flag and spline),
clears the h_g, pp_gm, pp_gg flags — and also clears the pp_mm flag; but
since the pp_mm rebuild depends only on HOD-independent state, a
subsequent power_mm returns exactly the same values as before the
mutation, provided a valid pp_mm cache held the values fitted from the
current state. -/
theorem set_hod_matter_preserved (env : Env) (st : HaloState) (hod1 : HOD)
    (k : ℚ)
    (hsync : st.initialized_pp_mm = true →
      st.pp_mm_spline =
        some (env.fitSpline st.ln_k_array (Halo.pp_mm_values env st))) :
    (Halo.set_hod env st hod1).initialized_h_m = st.initialized_h_m ∧
    (Halo.set_hod env st hod1).h_m_spline = st.h_m_spline ∧
    (Halo.set_hod env st hod1).initialized_pp_mm = false ∧
    (Halo.set_hod env st hod1).initialized_h_g = false ∧
    (Halo.set_hod env st hod1).initialized_pp_gm = false ∧
    (Halo.set_hod env st hod1).initialized_pp_gg = false ∧
    (Halo.power_mm env (Halo.set_hod env st hod1) k).2 =
      (Halo.power_mm env st k).2 := by
  refine ⟨rfl, rfl, rfl, rfl, rfl, rfl, ?_⟩
  cases hm : st.initialized_h_m <;> cases hpp : st.initialized_pp_mm
  · simp [Halo.power_mm, Halo.ensure_h_m, Halo.ensure_pp_mm,
      Halo.h_m, Halo.pp_mm, splineRead, hm, hpp,
      set_hod_initialized_h_m, set_hod_initialized_pp_mm, set_hod_h_m_spline,
      set_hod_pp_mm_spline, set_hod_k_min, set_hod_k_max, set_hod_cosmo,
      set_hod_ln_k_array, initialize_h_m_flag, initialize_h_m_initialized_pp_mm,
      initialize_h_m_h_m_spline, initialize_h_m_pp_mm_spline,
      initialize_h_m_k_min, initialize_h_m_k_max, initialize_h_m_cosmo,
      initialize_h_m_ln_k_array, initialize_pp_mm_flag,
      initialize_pp_mm_h_m_spline, initialize_pp_mm_pp_mm_spline,
      initialize_pp_mm_k_min, initialize_pp_mm_k_max, initialize_pp_mm_cosmo,
      initialize_pp_mm_ln_k_array, h_m_values_set_hod, pp_mm_values_set_hod,
      pp_mm_values_initialize_h_m]
  · simp [Halo.power_mm, Halo.ensure_h_m, Halo.ensure_pp_mm,
      Halo.h_m, Halo.pp_mm, splineRead, hm, hpp, hsync hpp,
      set_hod_initialized_h_m, set_hod_initialized_pp_mm, set_hod_h_m_spline,
      set_hod_pp_mm_spline, set_hod_k_min, set_hod_k_max, set_hod_cosmo,
      set_hod_ln_k_array, initialize_h_m_flag, initialize_h_m_initialized_pp_mm,
      initialize_h_m_h_m_spline, initialize_h_m_pp_mm_spline,
      initialize_h_m_k_min, initialize_h_m_k_max, initialize_h_m_cosmo,
      initialize_h_m_ln_k_array, initialize_pp_mm_flag,
      initialize_pp_mm_h_m_spline, initialize_pp_mm_pp_mm_spline,
      initialize_pp_mm_k_min, initialize_pp_mm_k_max, initialize_pp_mm_cosmo,
      initialize_pp_mm_ln_k_array, h_m_values_set_hod, pp_mm_values_set_hod,
      pp_mm_values_initialize_h_m]
  · simp [Halo.power_mm, Halo.ensure_h_m, Halo.ensure_pp_mm,
      Halo.h_m, Halo.pp_mm, splineRead, hm, hpp,
      set_hod_initialized_h_m, set_hod_initialized_pp_mm, set_hod_h_m_spline,
      set_hod_pp_mm_spline, set_hod_k_min, set_hod_k_max, set_hod_cosmo,
      set_hod_ln_k_array, initialize_h_m_flag, initialize_h_m_initialized_pp_mm,
      initialize_h_m_h_m_spline, initialize_h_m_pp_mm_spline,
      initialize_h_m_k_min, initialize_h_m_k_max, initialize_h_m_cosmo,
      initialize_h_m_ln_k_array, initialize_pp_mm_flag,
      initialize_pp_mm_h_m_spline, initialize_pp_mm_pp_mm_spline,
      initialize_pp_mm_k_min, initialize_pp_mm_k_max, initialize_pp_mm_cosmo,
      initialize_pp_mm_ln_k_array, h_m_values_set_hod, pp_mm_values_set_hod,
      pp_mm_values_initialize_h_m]
  · simp [Halo.power_mm, Halo.ensure_h_m, Halo.ensure_pp_mm,
      Halo.h_m, Halo.pp_mm, splineRead, hm, hpp, hsync hpp,
      set_hod_initialized_h_m, set_hod_initialized_pp_mm, set_hod_h_m_spline,
      set_hod_pp_mm_spline, set_hod_k_min, set_hod_k_max, set_hod_cosmo,
      set_hod_ln_k_array, initialize_h_m_flag, initialize_h_m_initialized_pp_mm,
      initialize_h_m_h_m_spline, initialize_h_m_pp_mm_spline,
      initialize_h_m_k_min, initialize_h_m_k_max, initialize_h_m_cosmo,
      initialize_h_m_ln_k_array, initialize_pp_mm_flag,
      initialize_pp_mm_h_m_spline, initialize_pp_mm_pp_mm_spline,
      initialize_pp_mm_k_min, initialize_pp_mm_k_max, initialize_pp_mm_cosmo,
      initialize_pp_mm_ln_k_array, h_m_values_set_hod, pp_mm_values_set_hod,
      pp_mm_values_initialize_h_m]

theorem set_hod_matter_preserved_witness :
    (Halo.set_hod envC stI hodB).initialized_h_m = stI.initialized_h_m ∧
    (Halo.set_hod envC stI hodB).h_m_spline = stI.h_m_spline ∧
    (Halo.set_hod envC stI hodB).initialized_pp_mm = false ∧
    (Halo.set_hod envC stI hodB).initialized_h_g = false ∧
    (Halo.set_hod envC stI hodB).initialized_pp_gm = false ∧
    (Halo.set_hod envC stI hodB).initialized_pp_gg = false ∧
    (Halo.power_mm envC (Halo.set_hod envC stI hodB) 5).2 =
      (Halo.power_mm envC stI 5).2 :=
  set_hod_matter_preserved envC stI hodB 5 (fun _ => rfl)

/-- C1 counterexample: stI holds a valid pp_mm cache (its flag is True);
after set_hod the pp_mm flag is False — the claim that the pp_mm validity
flag is not cleared by set_hod is false on the code. -/
theorem set_hod_clears_pp_mm_flag :
    stI.initialized_pp_mm = true ∧
    (Halo.set_hod envC stI hodB).initialized_pp_mm = false :=
  ⟨rfl, rfl⟩

/-- C9: the Exclusion variant multiplies the h_g integrand by the mass
window (the window shape evaluated at k times the exclusion radius
2 * virial_radius(M)), inherits power_mm unchanged from the base class,
and combines both galaxy powers — power_gm and power_gg — against the
model's own non-linear power_mm where the Standard variant uses the
linear power. -/
theorem exclusion_uses_power_mm (env : Env) (st : HaloState) (k m ln_nu ln_k : ℚ)
    (fhg fpgg fhm fpmm fpgm : ℚ → ℚ)
    (h1 : st.initialized_h_g = true) (h2 : st.initialized_pp_gg = true)
    (h3 : st.initialized_h_m = true) (h4 : st.initialized_pp_mm = true)
    (h5 : st.initialized_pp_gm = true)
    (e1 : st.h_g_spline = some fhg) (e2 : st.pp_gg_spline = some fpgg)
    (e3 : st.h_m_spline = some fhm) (e4 : st.pp_mm_spline = some fpmm)
    (e5 : st.pp_gm_spline = some fpgm) :
    HaloExclusion.h_g_integrand env st ln_nu ln_k =
      HaloExclusion.mass_window env st (st.mass.mass (env.exp ln_nu)) ln_k *
        Halo.h_g_integrand env st ln_nu ln_k ∧
    HaloExclusion.mass_window env st m ln_k =
      HaloExclusion.window_shape env
        (env.exp ln_k * (2 * Halo.virial_radius env st m)) ∧
    HaloExclusion.power_mm = Halo.power_mm ∧
    (HaloExclusion.power_gm env st k).2 =
      some ((st.cosmo.linear_power k * readv env st fhm k * readv env st fhm k +
          readv env st fpmm k) * readv env st fhg k * readv env st fhm k +
        readv env st fpgm k) ∧
    (HaloExclusion.power_gg env st k).2 =
      some ((st.cosmo.linear_power k * readv env st fhm k * readv env st fhm k +
          readv env st fpmm k) * readv env st fhg k * readv env st fhg k +
        readv env st fpgg k) ∧
    (Halo.power_gm env st k).2 =
      some (st.cosmo.linear_power k * readv env st fhg k * readv env st fhm k +
        readv env st fpgm k) ∧
    (Halo.power_gg env st k).2 =
      some (st.cosmo.linear_power k * readv env st fhg k * readv env st fhg k +
        readv env st fpgg k) ∧
    (Halo.power_mm env st k).2 =
      some (st.cosmo.linear_power k * readv env st fhm k * readv env st fhm k +
        readv env st fpmm k) := by
  refine ⟨?_, rfl, rfl, ?_, ?_, ?_, ?_, ?_⟩
  · unfold HaloExclusion.h_g_integrand Halo.h_g_integrand
    unfold HaloExclusion.mass_window
    ring
  · simp [HaloExclusion.power_gm, HaloExclusion.ensure_h_g,
      Halo.power_mm, Halo.ensure_h_m, Halo.ensure_pp_mm, h1, h2, h3, h4,
      Halo.h_g, Halo.h_m, Halo.pp_gm, Halo.pp_mm, splineRead,
      e1, e3, e4, e5, readv]
  · simp [HaloExclusion.power_gg, HaloExclusion.ensure_h_g, Halo.ensure_pp_gg,
      Halo.power_mm, Halo.ensure_h_m, Halo.ensure_pp_mm, h1, h2, h3, h4,
      Halo.h_g, Halo.pp_gg, Halo.h_m, Halo.pp_mm, splineRead,
      e1, e2, e3, e4, readv]
  · simp [Halo.power_gm, Halo.ensure_h_m, Halo.ensure_h_g, Halo.ensure_pp_gm,
      h1, h3, h5, Halo.h_g, Halo.h_m, Halo.pp_gm,
      splineRead, e1, e3, e5, readv]
  · simp [Halo.power_gg, Halo.ensure_h_g, Halo.ensure_pp_gg, h1, h2,
      Halo.h_g, Halo.pp_gg, splineRead, e1, e2, readv]
  · simp [Halo.power_mm, Halo.ensure_h_m, Halo.ensure_pp_mm, h3, h4,
      Halo.h_m, Halo.pp_mm, splineRead, e3, e4, readv]

theorem exclusion_uses_power_mm_witness :
    HaloExclusion.h_g_integrand envC stE2 0 0 =
      HaloExclusion.mass_window envC stE2 (stE2.mass.mass (envC.exp 0)) 0 *
        Halo.h_g_integrand envC stE2 0 0 ∧
    HaloExclusion.mass_window envC stE2 1 0 =
      HaloExclusion.window_shape envC
        (envC.exp 0 * (2 * Halo.virial_radius envC stE2 1)) ∧
    HaloExclusion.power_mm = Halo.power_mm ∧
    (HaloExclusion.power_gm envC stE2 1).2 =
      some ((stE2.cosmo.linear_power 1 * readv envC stE2 (fun _ => 1) 1 *
            readv envC stE2 (fun _ => 1) 1 + readv envC stE2 (fun _ => 1) 1) *
          readv envC stE2 (fun _ => 1) 1 * readv envC stE2 (fun _ => 1) 1 +
        readv envC stE2 (fun _ => 1) 1) ∧
    (HaloExclusion.power_gg envC stE2 1).2 =
      some ((stE2.cosmo.linear_power 1 * readv envC stE2 (fun _ => 1) 1 *
            readv envC stE2 (fun _ => 1) 1 + readv envC stE2 (fun _ => 1) 1) *
          readv envC stE2 (fun _ => 1) 1 * readv envC stE2 (fun _ => 1) 1 +
        readv envC stE2 (fun _ => 1) 1) ∧
    (Halo.power_gm envC stE2 1).2 =
      some (stE2.cosmo.linear_power 1 * readv envC stE2 (fun _ => 1) 1 *
          readv envC stE2 (fun _ => 1) 1 + readv envC stE2 (fun _ => 1) 1) ∧
    (Halo.power_gg envC stE2 1).2 =
      some (stE2.cosmo.linear_power 1 * readv envC stE2 (fun _ => 1) 1 *
          readv envC stE2 (fun _ => 1) 1 + readv envC stE2 (fun _ => 1) 1) ∧
    (Halo.power_mm envC stE2 1).2 =
      some (stE2.cosmo.linear_power 1 * readv envC stE2 (fun _ => 1) 1 *
          readv envC stE2 (fun _ => 1) 1 + readv envC stE2 (fun _ => 1) 1) :=
  exclusion_uses_power_mm envC stE2 1 1 0 0
    (fun _ => 1) (fun _ => 1) (fun _ => 1) (fun _ => 1) (fun _ => 1)
    rfl rfl rfl rfl rfl rfl rfl rfl rfl rfl

/-! Preservation lemmas for the lazy-initialization guards: each guard
touches only its own term's flag and spline. -/

theorem ensure_h_m_keeps_k_min (env : Env) (st : HaloState) :
    (Halo.ensure_h_m env st).k_min = st.k_min := by
  unfold Halo.ensure_h_m
  split <;> rfl

theorem ensure_h_m_keeps_k_max (env : Env) (st : HaloState) :
    (Halo.ensure_h_m env st).k_max = st.k_max := by
  unfold Halo.ensure_h_m
  split <;> rfl

theorem ensure_h_m_keeps_initialized_h_g (env : Env) (st : HaloState) :
    (Halo.ensure_h_m env st).initialized_h_g = st.initialized_h_g := by
  unfold Halo.ensure_h_m
  split <;> rfl

theorem ensure_h_m_keeps_initialized_pp_mm (env : Env) (st : HaloState) :
    (Halo.ensure_h_m env st).initialized_pp_mm = st.initialized_pp_mm := by
  unfold Halo.ensure_h_m
  split <;> rfl

theorem ensure_h_m_keeps_initialized_pp_gm (env : Env) (st : HaloState) :
    (Halo.ensure_h_m env st).initialized_pp_gm = st.initialized_pp_gm := by
  unfold Halo.ensure_h_m
  split <;> rfl

theorem ensure_h_m_keeps_initialized_pp_gg (env : Env) (st : HaloState) :
    (Halo.ensure_h_m env st).initialized_pp_gg = st.initialized_pp_gg := by
  unfold Halo.ensure_h_m
  split <;> rfl

theorem ensure_h_m_keeps_h_g_spline (env : Env) (st : HaloState) :
    (Halo.ensure_h_m env st).h_g_spline = st.h_g_spline := by
  unfold Halo.ensure_h_m
  split <;> rfl

theorem ensure_h_m_keeps_pp_mm_spline (env : Env) (st : HaloState) :
    (Halo.ensure_h_m env st).pp_mm_spline = st.pp_mm_spline := by
  unfold Halo.ensure_h_m
  split <;> rfl

theorem ensure_h_m_keeps_pp_gm_spline (env : Env) (st : HaloState) :
    (Halo.ensure_h_m env st).pp_gm_spline = st.pp_gm_spline := by
  unfold Halo.ensure_h_m
  split <;> rfl

theorem ensure_h_m_keeps_pp_gg_spline (env : Env) (st : HaloState) :
    (Halo.ensure_h_m env st).pp_gg_spline = st.pp_gg_spline := by
  unfold Halo.ensure_h_m
  split <;> rfl

theorem ensure_h_m_spline_isSome (env : Env) (st : HaloState)
    (w : st.initialized_h_m = true → st.h_m_spline.isSome = true) :
    ((Halo.ensure_h_m env st).h_m_spline).isSome = true := by
  unfold Halo.ensure_h_m
  by_cases h : st.initialized_h_m = true
  · simpa [h] using w h
  · simp [h, Halo.initialize_h_m]

theorem ensure_h_g_keeps_k_min (env : Env) (st : HaloState) :
    (Halo.ensure_h_g env st).k_min = st.k_min := by
  unfold Halo.ensure_h_g
  split <;> rfl

theorem ensure_h_g_keeps_k_max (env : Env) (st : HaloState) :
    (Halo.ensure_h_g env st).k_max = st.k_max := by
  unfold Halo.ensure_h_g
  split <;> rfl

theorem ensure_h_g_keeps_initialized_h_m (env : Env) (st : HaloState) :
    (Halo.ensure_h_g env st).initialized_h_m = st.initialized_h_m := by
  unfold Halo.ensure_h_g
  split <;> rfl

theorem ensure_h_g_keeps_initialized_pp_mm (env : Env) (st : HaloState) :
    (Halo.ensure_h_g env st).initialized_pp_mm = st.initialized_pp_mm := by
  unfold Halo.ensure_h_g
  split <;> rfl

theorem ensure_h_g_keeps_initialized_pp_gm (env : Env) (st : HaloState) :
    (Halo.ensure_h_g env st).initialized_pp_gm = st.initialized_pp_gm := by
  unfold Halo.ensure_h_g
  split <;> rfl

theorem ensure_h_g_keeps_initialized_pp_gg (env : Env) (st : HaloState) :
    (Halo.ensure_h_g env st).initialized_pp_gg = st.initialized_pp_gg := by
  unfold Halo.ensure_h_g
  split <;> rfl

theorem ensure_h_g_keeps_h_m_spline (env : Env) (st : HaloState) :
    (Halo.ensure_h_g env st).h_m_spline = st.h_m_spline := by
  unfold Halo.ensure_h_g
  split <;> rfl

theorem ensure_h_g_keeps_pp_mm_spline (env : Env) (st : HaloState) :
    (Halo.ensure_h_g env st).pp_mm_spline = st.pp_mm_spline := by
  unfold Halo.ensure_h_g
  split <;> rfl

theorem ensure_h_g_keeps_pp_gm_spline (env : Env) (st : HaloState) :
    (Halo.ensure_h_g env st).pp_gm_spline = st.pp_gm_spline := by
  unfold Halo.ensure_h_g
  split <;> rfl

theorem ensure_h_g_keeps_pp_gg_spline (env : Env) (st : HaloState) :
    (Halo.ensure_h_g env st).pp_gg_spline = st.pp_gg_spline := by
  unfold Halo.ensure_h_g
  split <;> rfl

theorem ensure_h_g_spline_isSome (env : Env) (st : HaloState)
    (w : st.initialized_h_g = true → st.h_g_spline.isSome = true) :
    ((Halo.ensure_h_g env st).h_g_spline).isSome = true := by
  unfold Halo.ensure_h_g
  by_cases h : st.initialized_h_g = true
  · simpa [h] using w h
  · simp [h, Halo.initialize_h_g]

theorem ensure_pp_mm_keeps_k_min (env : Env) (st : HaloState) :
    (Halo.ensure_pp_mm env st).k_min = st.k_min := by
  unfold Halo.ensure_pp_mm
  split <;> rfl

theorem ensure_pp_mm_keeps_k_max (env : Env) (st : HaloState) :
    (Halo.ensure_pp_mm env st).k_max = st.k_max := by
  unfold Halo.ensure_pp_mm
  split <;> rfl

theorem ensure_pp_mm_keeps_initialized_h_m (env : Env) (st : HaloState) :
    (Halo.ensure_pp_mm env st).initialized_h_m = st.initialized_h_m := by
  unfold Halo.ensure_pp_mm
  split <;> rfl

theorem ensure_pp_mm_keeps_initialized_h_g (env : Env) (st : HaloState) :
    (Halo.ensure_pp_mm env st).initialized_h_g = st.initialized_h_g := by
  unfold Halo.ensure_pp_mm
  split <;> rfl

theorem ensure_pp_mm_keeps_initialized_pp_gm (env : Env) (st : HaloState) :
    (Halo.ensure_pp_mm env st).initialized_pp_gm = st.initialized_pp_gm := by
  unfold Halo.ensure_pp_mm
  split <;> rfl

theorem ensure_pp_mm_keeps_initialized_pp_gg (env : Env) (st : HaloState) :
    (Halo.ensure_pp_mm env st).initialized_pp_gg = st.initialized_pp_gg := by
  unfold Halo.ensure_pp_mm
  split <;> rfl

theorem ensure_pp_mm_keeps_h_m_spline (env : Env) (st : HaloState) :
    (Halo.ensure_pp_mm env st).h_m_spline = st.h_m_spline := by
  unfold Halo.ensure_pp_mm
  split <;> rfl

theorem ensure_pp_mm_keeps_h_g_spline (env : Env) (st : HaloState) :
    (Halo.ensure_pp_mm env st).h_g_spline = st.h_g_spline := by
  unfold Halo.ensure_pp_mm
  split <;> rfl

theorem ensure_pp_mm_keeps_pp_gm_spline (env : Env) (st : HaloState) :
    (Halo.ensure_pp_mm env st).pp_gm_spline = st.pp_gm_spline := by
  unfold Halo.ensure_pp_mm
  split <;> rfl

theorem ensure_pp_mm_keeps_pp_gg_spline (env : Env) (st : HaloState) :
    (Halo.ensure_pp_mm env st).pp_gg_spline = st.pp_gg_spline := by
  unfold Halo.ensure_pp_mm
  split <;> rfl

theorem ensure_pp_mm_spline_isSome (env : Env) (st : HaloState)
    (w : st.initialized_pp_mm = true → st.pp_mm_spline.isSome = true) :
    ((Halo.ensure_pp_mm env st).pp_mm_spline).isSome = true := by
  unfold Halo.ensure_pp_mm
  by_cases h : st.initialized_pp_mm = true
  · simpa [h] using w h
  · simp [h, Halo.initialize_pp_mm]

theorem ensure_pp_gm_keeps_k_min (env : Env) (st : HaloState) :
    (Halo.ensure_pp_gm env st).k_min = st.k_min := by
  unfold Halo.ensure_pp_gm
  split <;> rfl

theorem ensure_pp_gm_keeps_k_max (env : Env) (st : HaloState) :
    (Halo.ensure_pp_gm env st).k_max = st.k_max := by
  unfold Halo.ensure_pp_gm
  split <;> rfl

theorem ensure_pp_gm_keeps_initialized_h_m (env : Env) (st : HaloState) :
    (Halo.ensure_pp_gm env st).initialized_h_m = st.initialized_h_m := by
  unfold Halo.ensure_pp_gm
  split <;> rfl

theorem ensure_pp_gm_keeps_initialized_h_g (env : Env) (st : HaloState) :
    (Halo.ensure_pp_gm env st).initialized_h_g = st.initialized_h_g := by
  unfold Halo.ensure_pp_gm
  split <;> rfl

theorem ensure_pp_gm_keeps_initialized_pp_mm (env : Env) (st : HaloState) :
    (Halo.ensure_pp_gm env st).initialized_pp_mm = st.initialized_pp_mm := by
  unfold Halo.ensure_pp_gm
  split <;> rfl

theorem ensure_pp_gm_keeps_initialized_pp_gg (env : Env) (st : HaloState) :
    (Halo.ensure_pp_gm env st).initialized_pp_gg = st.initialized_pp_gg := by
  unfold Halo.ensure_pp_gm
  split <;> rfl

theorem ensure_pp_gm_keeps_h_m_spline (env : Env) (st : HaloState) :
    (Halo.ensure_pp_gm env st).h_m_spline = st.h_m_spline := by
  unfold Halo.ensure_pp_gm
  split <;> rfl

theorem ensure_pp_gm_keeps_h_g_spline (env : Env) (st : HaloState) :
    (Halo.ensure_pp_gm env st).h_g_spline = st.h_g_spline := by
  unfold Halo.ensure_pp_gm
  split <;> rfl

theorem ensure_pp_gm_keeps_pp_mm_spline (env : Env) (st : HaloState) :
    (Halo.ensure_pp_gm env st).pp_mm_spline = st.pp_mm_spline := by
  unfold Halo.ensure_pp_gm
  split <;> rfl

theorem ensure_pp_gm_keeps_pp_gg_spline (env : Env) (st : HaloState) :
    (Halo.ensure_pp_gm env st).pp_gg_spline = st.pp_gg_spline := by
  unfold Halo.ensure_pp_gm
  split <;> rfl

theorem ensure_pp_gm_spline_isSome (env : Env) (st : HaloState)
    (w : st.initialized_pp_gm = true → st.pp_gm_spline.isSome = true) :
    ((Halo.ensure_pp_gm env st).pp_gm_spline).isSome = true := by
  unfold Halo.ensure_pp_gm
  by_cases h : st.initialized_pp_gm = true
  · simpa [h] using w h
  · simp [h, Halo.initialize_pp_gm]

theorem ensure_pp_gg_keeps_k_min (env : Env) (st : HaloState) :
    (Halo.ensure_pp_gg env st).k_min = st.k_min := by
  unfold Halo.ensure_pp_gg
  split <;> rfl

theorem ensure_pp_gg_keeps_k_max (env : Env) (st : HaloState) :
    (Halo.ensure_pp_gg env st).k_max = st.k_max := by
  unfold Halo.ensure_pp_gg
  split <;> rfl

theorem ensure_pp_gg_keeps_initialized_h_m (env : Env) (st : HaloState) :
    (Halo.ensure_pp_gg env st).initialized_h_m = st.initialized_h_m := by
  unfold Halo.ensure_pp_gg
  split <;> rfl

theorem ensure_pp_gg_keeps_initialized_h_g (env : Env) (st : HaloState) :
    (Halo.ensure_pp_gg env st).initialized_h_g = st.initialized_h_g := by
  unfold Halo.ensure_pp_gg
  split <;> rfl

theorem ensure_pp_gg_keeps_initialized_pp_mm (env : Env) (st : HaloState) :
    (Halo.ensure_pp_gg env st).initialized_pp_mm = st.initialized_pp_mm := by
  unfold Halo.ensure_pp_gg
  split <;> rfl

theorem ensure_pp_gg_keeps_initialized_pp_gm (env : Env) (st : HaloState) :
    (Halo.ensure_pp_gg env st).initialized_pp_gm = st.initialized_pp_gm := by
  unfold Halo.ensure_pp_gg
  split <;> rfl

theorem ensure_pp_gg_keeps_h_m_spline (env : Env) (st : HaloState) :
    (Halo.ensure_pp_gg env st).h_m_spline = st.h_m_spline := by
  unfold Halo.ensure_pp_gg
  split <;> rfl

theorem ensure_pp_gg_keeps_h_g_spline (env : Env) (st : HaloState) :
    (Halo.ensure_pp_gg env st).h_g_spline = st.h_g_spline := by
  unfold Halo.ensure_pp_gg
  split <;> rfl

theorem ensure_pp_gg_keeps_pp_mm_spline (env : Env) (st : HaloState) :
    (Halo.ensure_pp_gg env st).pp_mm_spline = st.pp_mm_spline := by
  unfold Halo.ensure_pp_gg
  split <;> rfl

theorem ensure_pp_gg_keeps_pp_gm_spline (env : Env) (st : HaloState) :
    (Halo.ensure_pp_gg env st).pp_gm_spline = st.pp_gm_spline := by
  unfold Halo.ensure_pp_gg
  split <;> rfl

theorem ensure_pp_gg_spline_isSome (env : Env) (st : HaloState)
    (w : st.initialized_pp_gg = true → st.pp_gg_spline.isSome = true) :
    ((Halo.ensure_pp_gg env st).pp_gg_spline).isSome = true := by
  unfold Halo.ensure_pp_gg
  by_cases h : st.initialized_pp_gg = true
  · simpa [h] using w h
  · simp [h, Halo.initialize_pp_gg]

theorem exclusion_ensure_h_g_keeps_k_min (env : Env) (st : HaloState) :
    (HaloExclusion.ensure_h_g env st).k_min = st.k_min := by
  unfold HaloExclusion.ensure_h_g
  split <;> rfl

theorem exclusion_ensure_h_g_keeps_k_max (env : Env) (st : HaloState) :
    (HaloExclusion.ensure_h_g env st).k_max = st.k_max := by
  unfold HaloExclusion.ensure_h_g
  split <;> rfl

theorem exclusion_ensure_h_g_keeps_initialized_h_m (env : Env) (st : HaloState) :
    (HaloExclusion.ensure_h_g env st).initialized_h_m = st.initialized_h_m := by
  unfold HaloExclusion.ensure_h_g
  split <;> rfl

theorem exclusion_ensure_h_g_keeps_initialized_pp_mm (env : Env) (st : HaloState) :
    (HaloExclusion.ensure_h_g env st).initialized_pp_mm = st.initialized_pp_mm := by
  unfold HaloExclusion.ensure_h_g
  split <;> rfl

theorem exclusion_ensure_h_g_keeps_initialized_pp_gm (env : Env) (st : HaloState) :
    (HaloExclusion.ensure_h_g env st).initialized_pp_gm = st.initialized_pp_gm := by
  unfold HaloExclusion.ensure_h_g
  split <;> rfl

theorem exclusion_ensure_h_g_keeps_initialized_pp_gg (env : Env) (st : HaloState) :
    (HaloExclusion.ensure_h_g env st).initialized_pp_gg = st.initialized_pp_gg := by
  unfold HaloExclusion.ensure_h_g
  split <;> rfl

theorem exclusion_ensure_h_g_keeps_h_m_spline (env : Env) (st : HaloState) :
    (HaloExclusion.ensure_h_g env st).h_m_spline = st.h_m_spline := by
  unfold HaloExclusion.ensure_h_g
  split <;> rfl

theorem exclusion_ensure_h_g_keeps_pp_mm_spline (env : Env) (st : HaloState) :
    (HaloExclusion.ensure_h_g env st).pp_mm_spline = st.pp_mm_spline := by
  unfold HaloExclusion.ensure_h_g
  split <;> rfl

theorem exclusion_ensure_h_g_keeps_pp_gm_spline (env : Env) (st : HaloState) :
    (HaloExclusion.ensure_h_g env st).pp_gm_spline = st.pp_gm_spline := by
  unfold HaloExclusion.ensure_h_g
  split <;> rfl

theorem exclusion_ensure_h_g_keeps_pp_gg_spline (env : Env) (st : HaloState) :
    (HaloExclusion.ensure_h_g env st).pp_gg_spline = st.pp_gg_spline := by
  unfold HaloExclusion.ensure_h_g
  split <;> rfl

theorem exclusion_ensure_h_g_spline_isSome (env : Env) (st : HaloState)
    (w : st.initialized_h_g = true → st.h_g_spline.isSome = true) :
    ((HaloExclusion.ensure_h_g env st).h_g_spline).isSome = true := by
  unfold HaloExclusion.ensure_h_g
  by_cases h : st.initialized_h_g = true
  · simpa [h] using w h
  · simp [h, HaloExclusion.initialize_h_g]

/-- C8: in the 1-halo galaxy integrands, when the governing occupation
moment (first moment for pp_gm, second moment for pp_gg) at the mass under
the integral is below 1 the integrand carries a single power of the
profile transform y, and otherwise carries y twice. -/
theorem poisson_power_rule (env : Env) (st : HaloState) (ln_nu ln_k : ℚ) :
    (st.local_hod.first_moment (st.mass.mass (env.exp ln_nu)) < 1 →
      Halo.pp_gm_integrand env st ln_nu ln_k =
        env.exp ln_nu * st.mass.f_nu (env.exp ln_nu) *
          st.local_hod.first_moment (st.mass.mass (env.exp ln_nu)) *
          Halo.y env st ln_k (st.mass.mass (env.exp ln_nu))) ∧
    (1 ≤ st.local_hod.first_moment (st.mass.mass (env.exp ln_nu)) →
      Halo.pp_gm_integrand env st ln_nu ln_k =
        env.exp ln_nu * st.mass.f_nu (env.exp ln_nu) *
          st.local_hod.first_moment (st.mass.mass (env.exp ln_nu)) *
          Halo.y env st ln_k (st.mass.mass (env.exp ln_nu)) *
          Halo.y env st ln_k (st.mass.mass (env.exp ln_nu))) ∧
    (st.local_hod.second_moment (st.mass.mass (env.exp ln_nu)) < 1 →
      Halo.pp_gg_integrand env st ln_nu ln_k =
        env.exp ln_nu * st.mass.f_nu (env.exp ln_nu) *
          st.local_hod.second_moment (st.mass.mass (env.exp ln_nu)) *
          Halo.y env st ln_k (st.mass.mass (env.exp ln_nu)) /
          (st.mass.mass (env.exp ln_nu) * st.n_bar.getD 0 * st.n_bar.getD 0)) ∧
    (1 ≤ st.local_hod.second_moment (st.mass.mass (env.exp ln_nu)) →
      Halo.pp_gg_integrand env st ln_nu ln_k =
        env.exp ln_nu * st.mass.f_nu (env.exp ln_nu) *
          st.local_hod.second_moment (st.mass.mass (env.exp ln_nu)) *
          Halo.y env st ln_k (st.mass.mass (env.exp ln_nu)) *
          Halo.y env st ln_k (st.mass.mass (env.exp ln_nu)) /
          (st.mass.mass (env.exp ln_nu) * st.n_bar.getD 0 * st.n_bar.getD 0)) := by
  refine ⟨fun h => ?_, fun h => ?_, fun h => ?_, fun h => ?_⟩
  · simp [Halo.pp_gm_integrand, h]
  · simp [Halo.pp_gm_integrand, not_lt.mpr h]
  · simp [Halo.pp_gg_integrand, h]
  · simp [Halo.pp_gg_integrand, not_lt.mpr h]

theorem poisson_power_rule_witness :
    Halo.pp_gm_integrand envC stHalf 0 0 =
      envC.exp 0 * stHalf.mass.f_nu (envC.exp 0) *
        stHalf.local_hod.first_moment (stHalf.mass.mass (envC.exp 0)) *
        Halo.y envC stHalf 0 (stHalf.mass.mass (envC.exp 0)) ∧
    Halo.pp_gm_integrand envC stTwo 0 0 =
      envC.exp 0 * stTwo.mass.f_nu (envC.exp 0) *
        stTwo.local_hod.first_moment (stTwo.mass.mass (envC.exp 0)) *
        Halo.y envC stTwo 0 (stTwo.mass.mass (envC.exp 0)) *
        Halo.y envC stTwo 0 (stTwo.mass.mass (envC.exp 0)) ∧
    Halo.pp_gg_integrand envC stHalf 0 0 =
      envC.exp 0 * stHalf.mass.f_nu (envC.exp 0) *
        stHalf.local_hod.second_moment (stHalf.mass.mass (envC.exp 0)) *
        Halo.y envC stHalf 0 (stHalf.mass.mass (envC.exp 0)) /
        (stHalf.mass.mass (envC.exp 0) * stHalf.n_bar.getD 0 *
          stHalf.n_bar.getD 0) ∧
    Halo.pp_gg_integrand envC stTwo 0 0 =
      envC.exp 0 * stTwo.mass.f_nu (envC.exp 0) *
        stTwo.local_hod.second_moment (stTwo.mass.mass (envC.exp 0)) *
        Halo.y envC stTwo 0 (stTwo.mass.mass (envC.exp 0)) *
        Halo.y envC stTwo 0 (stTwo.mass.mass (envC.exp 0)) /
        (stTwo.mass.mass (envC.exp 0) * stTwo.n_bar.getD 0 *
          stTwo.n_bar.getD 0) :=
  ⟨(poisson_power_rule envC stHalf 0 0).1 (show (1 : ℚ)/2 < 1 by norm_num),
   (poisson_power_rule envC stTwo 0 0).2.1 (show (1 : ℚ) ≤ 2 by norm_num),
   (poisson_power_rule envC stHalf 0 0).2.2.1 (show (1 : ℚ)/2 < 1 by norm_num),
   (poisson_power_rule envC stTwo 0 0).2.2.2 (show (1 : ℚ) ≤ 5 by norm_num)⟩

/-! Out-of-domain behaviour of the power functions. -/

theorem power_mm_state (env : Env) (st : HaloState) (k : ℚ) :
    (Halo.power_mm env st k).1 =
      Halo.ensure_pp_mm env (Halo.ensure_h_m env st) := rfl

theorem power_mm_val (env : Env) (st : HaloState) (k : ℚ) :
    (Halo.power_mm env st k).2 =
      (do
        let a ← Halo.h_m env (Halo.ensure_pp_mm env (Halo.ensure_h_m env st)) k
        let b ← Halo.pp_mm env (Halo.ensure_pp_mm env (Halo.ensure_h_m env st)) k
        pure ((Halo.ensure_pp_mm env (Halo.ensure_h_m env st)).cosmo.linear_power
          k * a * a + b)) := rfl

theorem power_gm_val (env : Env) (st : HaloState) (k : ℚ) :
    (Halo.power_gm env st k).2 =
      (do
        let a ← Halo.h_g env
          (Halo.ensure_pp_gm env (Halo.ensure_h_g env (Halo.ensure_h_m env st))) k
        let b ← Halo.h_m env
          (Halo.ensure_pp_gm env (Halo.ensure_h_g env (Halo.ensure_h_m env st))) k
        let c ← Halo.pp_gm env
          (Halo.ensure_pp_gm env (Halo.ensure_h_g env (Halo.ensure_h_m env st))) k
        pure ((Halo.ensure_pp_gm env (Halo.ensure_h_g env
          (Halo.ensure_h_m env st))).cosmo.linear_power k * a * b + c)) := rfl

theorem power_gg_val (env : Env) (st : HaloState) (k : ℚ) :
    (Halo.power_gg env st k).2 =
      (do
        let a ← Halo.h_g env (Halo.ensure_pp_gg env (Halo.ensure_h_g env st)) k
        let b ← Halo.pp_gg env (Halo.ensure_pp_gg env (Halo.ensure_h_g env st)) k
        pure ((Halo.ensure_pp_gg env
          (Halo.ensure_h_g env st)).cosmo.linear_power k * a * a + b)) := rfl

theorem exclusion_power_gg_val (env : Env) (st : HaloState) (k : ℚ) :
    (HaloExclusion.power_gg env st k).2 =
      (do
        let pmm ← (Halo.power_mm env
          (Halo.ensure_pp_gg env (HaloExclusion.ensure_h_g env st)) k).2
        let a ← Halo.h_g env (Halo.power_mm env
          (Halo.ensure_pp_gg env (HaloExclusion.ensure_h_g env st)) k).1 k
        let b ← Halo.pp_gg env (Halo.power_mm env
          (Halo.ensure_pp_gg env (HaloExclusion.ensure_h_g env st)) k).1 k
        pure (pmm * a * a + b)) := rfl

theorem fit_power_mm_keeps_base (env : Env) (fst : FitState) (k : ℚ) :
    (HaloFit.power_mm env fst k).1.toHaloState = fst.toHaloState := by
  show (if fst.initialized_sigma_spline then fst
    else HaloFit.initialize_sigma_spline env fst).toHaloState = fst.toHaloState
  split <;> rfl

theorem fit_power_gm_val (env : Env) (fst : FitState) (k : ℚ) :
    (HaloFit.power_gm env fst k).2 =
      (do
        let a ← Halo.h_g env (HaloFit.power_mm env
          (withBase fst (Halo.ensure_pp_gm env (Halo.ensure_h_g env (Halo.ensure_h_m env fst.toHaloState)))) k).1.toHaloState k
        let b ← Halo.h_m env (HaloFit.power_mm env
          (withBase fst (Halo.ensure_pp_gm env (Halo.ensure_h_g env (Halo.ensure_h_m env fst.toHaloState)))) k).1.toHaloState k
        let c ← Halo.pp_gm env (HaloFit.power_mm env
          (withBase fst (Halo.ensure_pp_gm env (Halo.ensure_h_g env (Halo.ensure_h_m env fst.toHaloState)))) k).1.toHaloState k
        pure ((HaloFit.power_mm env
          (withBase fst (Halo.ensure_pp_gm env (Halo.ensure_h_g env (Halo.ensure_h_m env fst.toHaloState)))) k).2 * a * b + c)) := rfl

theorem fit_power_gg_val (env : Env) (fst : FitState) (k : ℚ) :
    (HaloFit.power_gg env fst k).2 =
      (do
        let a ← Halo.h_g env (HaloFit.power_mm env
          (withBase fst (Halo.ensure_pp_gg env (Halo.ensure_h_g env fst.toHaloState))) k).1.toHaloState k
        let b ← Halo.pp_gg env (HaloFit.power_mm env
          (withBase fst (Halo.ensure_pp_gg env (Halo.ensure_h_g env fst.toHaloState))) k).1.toHaloState k
        pure ((HaloFit.power_mm env
          (withBase fst (Halo.ensure_pp_gg env (Halo.ensure_h_g env fst.toHaloState))) k).2 * a * a + b)) := rfl

theorem power_mm_out (env : Env) (st : HaloState) (k : ℚ)
    (w1 : st.initialized_h_m = true → st.h_m_spline.isSome = true)
    (w3 : st.initialized_pp_mm = true → st.pp_mm_spline.isSome = true)
    (hk : ¬(st.k_min ≤ k ∧ k ≤ st.k_max)) :
    (Halo.power_mm env st k).2 = some 0 := by
  have hA : ((Halo.ensure_pp_mm env (Halo.ensure_h_m env st)).h_m_spline).isSome
      = true := by
    rw [ensure_pp_mm_keeps_h_m_spline]
    exact ensure_h_m_spline_isSome env st w1
  have hB : ((Halo.ensure_pp_mm env (Halo.ensure_h_m env st)).pp_mm_spline).isSome
      = true := by
    apply ensure_pp_mm_spline_isSome
    intro h
    rw [ensure_h_m_keeps_pp_mm_spline]
    rw [ensure_h_m_keeps_initialized_pp_mm] at h
    exact w3 h
  have hK : ¬((Halo.ensure_pp_mm env (Halo.ensure_h_m env st)).k_min ≤ k ∧
      k ≤ (Halo.ensure_pp_mm env (Halo.ensure_h_m env st)).k_max) := by
    rw [ensure_pp_mm_keeps_k_min, ensure_h_m_keeps_k_min,
      ensure_pp_mm_keeps_k_max, ensure_h_m_keeps_k_max]
    exact hk
  rw [power_mm_val]
  simp only [Halo.h_m, Halo.pp_mm]
  rw [splineRead_out env _ k hA hK, splineRead_out env _ k hB hK]
  simp

theorem power_gm_out (env : Env) (st : HaloState) (k : ℚ)
    (w1 : st.initialized_h_m = true → st.h_m_spline.isSome = true)
    (w2 : st.initialized_h_g = true → st.h_g_spline.isSome = true)
    (w4 : st.initialized_pp_gm = true → st.pp_gm_spline.isSome = true)
    (hk : ¬(st.k_min ≤ k ∧ k ≤ st.k_max)) :
    (Halo.power_gm env st k).2 = some 0 := by
  have hA : ((Halo.ensure_pp_gm env (Halo.ensure_h_g env
      (Halo.ensure_h_m env st))).h_g_spline).isSome = true := by
    rw [ensure_pp_gm_keeps_h_g_spline]
    apply ensure_h_g_spline_isSome
    intro h
    rw [ensure_h_m_keeps_h_g_spline]
    rw [ensure_h_m_keeps_initialized_h_g] at h
    exact w2 h
  have hB : ((Halo.ensure_pp_gm env (Halo.ensure_h_g env
      (Halo.ensure_h_m env st))).h_m_spline).isSome = true := by
    rw [ensure_pp_gm_keeps_h_m_spline, ensure_h_g_keeps_h_m_spline]
    exact ensure_h_m_spline_isSome env st w1
  have hC : ((Halo.ensure_pp_gm env (Halo.ensure_h_g env
      (Halo.ensure_h_m env st))).pp_gm_spline).isSome = true := by
    apply ensure_pp_gm_spline_isSome
    intro h
    rw [ensure_h_g_keeps_pp_gm_spline, ensure_h_m_keeps_pp_gm_spline]
    rw [ensure_h_g_keeps_initialized_pp_gm,
      ensure_h_m_keeps_initialized_pp_gm] at h
    exact w4 h
  have hK : ¬((Halo.ensure_pp_gm env (Halo.ensure_h_g env
        (Halo.ensure_h_m env st))).k_min ≤ k ∧
      k ≤ (Halo.ensure_pp_gm env (Halo.ensure_h_g env
        (Halo.ensure_h_m env st))).k_max) := by
    rw [ensure_pp_gm_keeps_k_min, ensure_h_g_keeps_k_min,
      ensure_h_m_keeps_k_min, ensure_pp_gm_keeps_k_max,
      ensure_h_g_keeps_k_max, ensure_h_m_keeps_k_max]
    exact hk
  rw [power_gm_val]
  simp only [Halo.h_g, Halo.h_m, Halo.pp_gm]
  rw [splineRead_out env _ k hA hK, splineRead_out env _ k hB hK,
    splineRead_out env _ k hC hK]
  simp

theorem power_gg_out (env : Env) (st : HaloState) (k : ℚ)
    (w2 : st.initialized_h_g = true → st.h_g_spline.isSome = true)
    (w5 : st.initialized_pp_gg = true → st.pp_gg_spline.isSome = true)
    (hk : ¬(st.k_min ≤ k ∧ k ≤ st.k_max)) :
    (Halo.power_gg env st k).2 = some 0 := by
  have hA : ((Halo.ensure_pp_gg env (Halo.ensure_h_g env st)).h_g_spline).isSome
      = true := by
    rw [ensure_pp_gg_keeps_h_g_spline]
    exact ensure_h_g_spline_isSome env st w2
  have hB : ((Halo.ensure_pp_gg env (Halo.ensure_h_g env st)).pp_gg_spline).isSome
      = true := by
    apply ensure_pp_gg_spline_isSome
    intro h
    rw [ensure_h_g_keeps_pp_gg_spline]
    rw [ensure_h_g_keeps_initialized_pp_gg] at h
    exact w5 h
  have hK : ¬((Halo.ensure_pp_gg env (Halo.ensure_h_g env st)).k_min ≤ k ∧
      k ≤ (Halo.ensure_pp_gg env (Halo.ensure_h_g env st)).k_max) := by
    rw [ensure_pp_gg_keeps_k_min, ensure_h_g_keeps_k_min,
      ensure_pp_gg_keeps_k_max, ensure_h_g_keeps_k_max]
    exact hk
  rw [power_gg_val]
  simp only [Halo.h_g, Halo.pp_gg]
  rw [splineRead_out env _ k hA hK, splineRead_out env _ k hB hK]
  simp

theorem exclusion_power_gg_out (env : Env) (st : HaloState) (k : ℚ)
    (w1 : st.initialized_h_m = true → st.h_m_spline.isSome = true)
    (w2 : st.initialized_h_g = true → st.h_g_spline.isSome = true)
    (w3 : st.initialized_pp_mm = true → st.pp_mm_spline.isSome = true)
    (w5 : st.initialized_pp_gg = true → st.pp_gg_spline.isSome = true)
    (hk : ¬(st.k_min ≤ k ∧ k ≤ st.k_max)) :
    (HaloExclusion.power_gg env st k).2 = some 0 := by
  have w1s : (Halo.ensure_pp_gg env
        (HaloExclusion.ensure_h_g env st)).initialized_h_m = true →
      ((Halo.ensure_pp_gg env
        (HaloExclusion.ensure_h_g env st)).h_m_spline).isSome = true := by
    intro h
    rw [ensure_pp_gg_keeps_h_m_spline, exclusion_ensure_h_g_keeps_h_m_spline]
    rw [ensure_pp_gg_keeps_initialized_h_m,
      exclusion_ensure_h_g_keeps_initialized_h_m] at h
    exact w1 h
  have w3s : (Halo.ensure_pp_gg env
        (HaloExclusion.ensure_h_g env st)).initialized_pp_mm = true →
      ((Halo.ensure_pp_gg env
        (HaloExclusion.ensure_h_g env st)).pp_mm_spline).isSome = true := by
    intro h
    rw [ensure_pp_gg_keeps_pp_mm_spline, exclusion_ensure_h_g_keeps_pp_mm_spline]
    rw [ensure_pp_gg_keeps_initialized_pp_mm,
      exclusion_ensure_h_g_keeps_initialized_pp_mm] at h
    exact w3 h
  have hkS : ¬((Halo.ensure_pp_gg env
        (HaloExclusion.ensure_h_g env st)).k_min ≤ k ∧
      k ≤ (Halo.ensure_pp_gg env (HaloExclusion.ensure_h_g env st)).k_max) := by
    rw [ensure_pp_gg_keeps_k_min, exclusion_ensure_h_g_keeps_k_min,
      ensure_pp_gg_keeps_k_max, exclusion_ensure_h_g_keeps_k_max]
    exact hk
  have pv : (Halo.power_mm env (Halo.ensure_pp_gg env
      (HaloExclusion.ensure_h_g env st)) k).2 = some 0 :=
    power_mm_out env _ k w1s w3s hkS
  have hg : ((Halo.power_mm env (Halo.ensure_pp_gg env
      (HaloExclusion.ensure_h_g env st)) k).1.h_g_spline).isSome = true := by
    rw [power_mm_state, ensure_pp_mm_keeps_h_g_spline,
      ensure_h_m_keeps_h_g_spline, ensure_pp_gg_keeps_h_g_spline]
    exact exclusion_ensure_h_g_spline_isSome env st w2
  have hgg : ((Halo.power_mm env (Halo.ensure_pp_gg env
      (HaloExclusion.ensure_h_g env st)) k).1.pp_gg_spline).isSome = true := by
    rw [power_mm_state, ensure_pp_mm_keeps_pp_gg_spline,
      ensure_h_m_keeps_pp_gg_spline]
    apply ensure_pp_gg_spline_isSome
    intro h
    rw [exclusion_ensure_h_g_keeps_pp_gg_spline]
    rw [exclusion_ensure_h_g_keeps_initialized_pp_gg] at h
    exact w5 h
  have hkP : ¬((Halo.power_mm env (Halo.ensure_pp_gg env
        (HaloExclusion.ensure_h_g env st)) k).1.k_min ≤ k ∧
      k ≤ (Halo.power_mm env (Halo.ensure_pp_gg env
        (HaloExclusion.ensure_h_g env st)) k).1.k_max) := by
    rw [power_mm_state, ensure_pp_mm_keeps_k_min, ensure_h_m_keeps_k_min,
      ensure_pp_gg_keeps_k_min, exclusion_ensure_h_g_keeps_k_min,
      ensure_pp_mm_keeps_k_max, ensure_h_m_keeps_k_max,
      ensure_pp_gg_keeps_k_max, exclusion_ensure_h_g_keeps_k_max]
    exact hk
  rw [exclusion_power_gg_val, pv]
  simp only [Halo.h_g, Halo.pp_gg]
  rw [splineRead_out env _ k hg hkP, splineRead_out env _ k hgg hkP]
  simp

theorem fit_power_gm_out (env : Env) (fst : FitState) (k : ℚ)
    (w1 : fst.toHaloState.initialized_h_m = true →
      fst.toHaloState.h_m_spline.isSome = true)
    (w2 : fst.toHaloState.initialized_h_g = true →
      fst.toHaloState.h_g_spline.isSome = true)
    (w4 : fst.toHaloState.initialized_pp_gm = true →
      fst.toHaloState.pp_gm_spline.isSome = true)
    (hk : ¬(fst.toHaloState.k_min ≤ k ∧ k ≤ fst.toHaloState.k_max)) :
    (HaloFit.power_gm env fst k).2 = some 0 := by
  have hbase : (HaloFit.power_mm env
      (withBase fst (Halo.ensure_pp_gm env (Halo.ensure_h_g env (Halo.ensure_h_m env fst.toHaloState)))) k).1.toHaloState =
      Halo.ensure_pp_gm env (Halo.ensure_h_g env
        (Halo.ensure_h_m env fst.toHaloState)) := by
    rw [fit_power_mm_keeps_base]
    rfl
  have hA : ((Halo.ensure_pp_gm env (Halo.ensure_h_g env
      (Halo.ensure_h_m env fst.toHaloState))).h_g_spline).isSome = true := by
    rw [ensure_pp_gm_keeps_h_g_spline]
    apply ensure_h_g_spline_isSome
    intro h
    rw [ensure_h_m_keeps_h_g_spline]
    rw [ensure_h_m_keeps_initialized_h_g] at h
    exact w2 h
  have hB : ((Halo.ensure_pp_gm env (Halo.ensure_h_g env
      (Halo.ensure_h_m env fst.toHaloState))).h_m_spline).isSome = true := by
    rw [ensure_pp_gm_keeps_h_m_spline, ensure_h_g_keeps_h_m_spline]
    exact ensure_h_m_spline_isSome env fst.toHaloState w1
  have hC : ((Halo.ensure_pp_gm env (Halo.ensure_h_g env
      (Halo.ensure_h_m env fst.toHaloState))).pp_gm_spline).isSome = true := by
    apply ensure_pp_gm_spline_isSome
    intro h
    rw [ensure_h_g_keeps_pp_gm_spline, ensure_h_m_keeps_pp_gm_spline]
    rw [ensure_h_g_keeps_initialized_pp_gm,
      ensure_h_m_keeps_initialized_pp_gm] at h
    exact w4 h
  have hK : ¬((Halo.ensure_pp_gm env (Halo.ensure_h_g env
        (Halo.ensure_h_m env fst.toHaloState))).k_min ≤ k ∧
      k ≤ (Halo.ensure_pp_gm env (Halo.ensure_h_g env
        (Halo.ensure_h_m env fst.toHaloState))).k_max) := by
    rw [ensure_pp_gm_keeps_k_min, ensure_h_g_keeps_k_min,
      ensure_h_m_keeps_k_min, ensure_pp_gm_keeps_k_max,
      ensure_h_g_keeps_k_max, ensure_h_m_keeps_k_max]
    exact hk
  rw [fit_power_gm_val, hbase]
  simp only [Halo.h_g, Halo.h_m, Halo.pp_gm]
  rw [splineRead_out env _ k hA hK, splineRead_out env _ k hB hK,
    splineRead_out env _ k hC hK]
  simp

theorem fit_power_gg_out (env : Env) (fst : FitState) (k : ℚ)
    (w2 : fst.toHaloState.initialized_h_g = true →
      fst.toHaloState.h_g_spline.isSome = true)
    (w5 : fst.toHaloState.initialized_pp_gg = true →
      fst.toHaloState.pp_gg_spline.isSome = true)
    (hk : ¬(fst.toHaloState.k_min ≤ k ∧ k ≤ fst.toHaloState.k_max)) :
    (HaloFit.power_gg env fst k).2 = some 0 := by
  have hbase : (HaloFit.power_mm env
      (withBase fst (Halo.ensure_pp_gg env (Halo.ensure_h_g env fst.toHaloState))) k).1.toHaloState =
      Halo.ensure_pp_gg env (Halo.ensure_h_g env fst.toHaloState) := by
    rw [fit_power_mm_keeps_base]
    rfl
  have hA : ((Halo.ensure_pp_gg env
      (Halo.ensure_h_g env fst.toHaloState)).h_g_spline).isSome = true := by
    rw [ensure_pp_gg_keeps_h_g_spline]
    exact ensure_h_g_spline_isSome env fst.toHaloState w2
  have hB : ((Halo.ensure_pp_gg env
      (Halo.ensure_h_g env fst.toHaloState)).pp_gg_spline).isSome = true := by
    apply ensure_pp_gg_spline_isSome
    intro h
    rw [ensure_h_g_keeps_pp_gg_spline]
    rw [ensure_h_g_keeps_initialized_pp_gg] at h
    exact w5 h
  have hK : ¬((Halo.ensure_pp_gg env
        (Halo.ensure_h_g env fst.toHaloState)).k_min ≤ k ∧
      k ≤ (Halo.ensure_pp_gg env
        (Halo.ensure_h_g env fst.toHaloState)).k_max) := by
    rw [ensure_pp_gg_keeps_k_min, ensure_h_g_keeps_k_min,
      ensure_pp_gg_keeps_k_max, ensure_h_g_keeps_k_max]
    exact hk
  rw [fit_power_gg_val, hbase]
  simp only [Halo.h_g, Halo.pp_gg]
  rw [splineRead_out env _ k hA hK, splineRead_out env _ k hB hK]
  simp

/-- C6 (amended): outside [k_min, k_max] every cached term spline reads as
exactly 0, so every Standard-variant power, the Exclusion power_mm and
power_gg, and the HaloFit galaxy powers return exactly 0; HaloFit.power_mm
is excluded: the fitting formula carries no domain guard (see the
counterexample), and HaloExclusion.power_gm is excluded because of its
mismatched initialization guard. -/
theorem power_out_of_domain_zero (env : Env) (st : HaloState) (fst : FitState)
    (k : ℚ) (hw : CacheWF st) (hwf : CacheWF fst.toHaloState)
    (hk : ¬(st.k_min ≤ k ∧ k ≤ st.k_max))
    (hkf : ¬(fst.toHaloState.k_min ≤ k ∧ k ≤ fst.toHaloState.k_max)) :
    (Halo.power_mm env st k).2 = some 0 ∧
    (Halo.power_gm env st k).2 = some 0 ∧
    (Halo.power_mg env st k).2 = some 0 ∧
    (Halo.power_gg env st k).2 = some 0 ∧
    (HaloExclusion.power_mm env st k).2 = some 0 ∧
    (HaloExclusion.power_gg env st k).2 = some 0 ∧
    (HaloFit.power_gm env fst k).2 = some 0 ∧
    (HaloFit.power_mg env fst k).2 = some 0 ∧
    (HaloFit.power_gg env fst k).2 = some 0 := by
  obtain ⟨w1, w2, w3, w4, w5⟩ := hw
  obtain ⟨f1, f2, f3, f4, f5⟩ := hwf
  exact ⟨power_mm_out env st k w1 w3 hk,
    power_gm_out env st k w1 w2 w4 hk,
    power_gm_out env st k w1 w2 w4 hk,
    power_gg_out env st k w2 w5 hk,
    power_mm_out env st k w1 w3 hk,
    exclusion_power_gg_out env st k w1 w2 w3 w5 hk,
    fit_power_gm_out env fst k f1 f2 f4 hkf,
    fit_power_gm_out env fst k f1 f2 f4 hkf,
    fit_power_gg_out env fst k f2 f5 hkf⟩

theorem power_out_of_domain_zero_witness :
    (Halo.power_mm envC stH0 200).2 = some 0 ∧
    (Halo.power_gm envC stH0 200).2 = some 0 ∧
    (Halo.power_mg envC stH0 200).2 = some 0 ∧
    (Halo.power_gg envC stH0 200).2 = some 0 ∧
    (HaloExclusion.power_mm envC stH0 200).2 = some 0 ∧
    (HaloExclusion.power_gg envC stH0 200).2 = some 0 ∧
    (HaloFit.power_gm envC fstD 200).2 = some 0 ∧
    (HaloFit.power_mg envC fstD 200).2 = some 0 ∧
    (HaloFit.power_gg envC fstD 200).2 = some 0 :=
  power_out_of_domain_zero envC stH0 fstD 200
    ⟨by decide, by decide, by decide, by decide, by decide⟩
    ⟨by decide, by decide, by decide, by decide, by decide⟩
    (show ¬((1 : ℚ)/1000 ≤ 200 ∧ (200 : ℚ) ≤ 100) by norm_num)
    (show ¬((1 : ℚ)/1000 ≤ 200 ∧ (200 : ℚ) ≤ 100) by norm_num)

/-- C6 counterexample: at k = 200, outside the cached domain, the HaloFit
variant's power_mm evaluates the fitting formula and returns a non-zero
value (under the concrete envF instantiation of the abstract special
functions): there is no domain guard in HaloFit.power_mm. -/
theorem halofit_power_mm_nonzero_out_of_domain :
    ¬(fstF.k_min ≤ (200 : ℚ) ∧ (200 : ℚ) ≤ fstF.k_max) ∧
    (HaloFit.power_mm envF fstF 200).2 ≠ 0 := by
  constructor
  · show ¬((1 : ℚ)/1000 ≤ 200 ∧ (200 : ℚ) ≤ 100)
    norm_num
  · norm_num [HaloFit.power_mm, HaloFit.initialize_sigma_spline,
      HaloFit.delta2_Q, HaloFit.delta2_H, HaloFit.delta2_prime_H,
      HaloFit.f_supp, HaloFit.sigma2_integrand, fstF, HaloFit.init,
      Halo.init, Halo.fresh_state, Halo.calculate_n_bar,
      Halo.initialize_halo_splines, Halo.nbar_integrand, linspace,
      envF, envC, cosmoC, mfC, hodC, hdC, List.range_succ,
      abs_of_nonneg]

end ChompHalo
